import Mathlib

/-!
Verification development for the oc-cli event-stream formatter and
session-wait engine.

The definitions below are a shallow embedding of the original sources:

* `src/bin/oc-cli.js` (format-event module): `createFormatterState`,
  `truncate`, `endStreaming`, `ensureHeader`, `formatEvent`.
* `src/src/lib/wait.ts`: `eventMatchesSession`, `waitForSession`
  (split here into the event loop `processEvents` plus the
  race/abort-classification wrapper `waitForSession`).
* `checkSessionStatus` (declared in `src/lib/wait.ts` but its body is not
  part of the sources; modelled from the spec, see its doc comment).

Modelling conventions:

* JavaScript strings that may be `undefined` are `Option String`; the
  coalescing operator `??` is `Option.getD` / explicit matches, and
  string truthiness (`if (s)`, `a || b`) tests `some s` with `s ≠ ""`.
* `chalk` color wrappers only add ANSI escapes around their argument, so
  they are modelled as the identity on the visible text; `String(x)` of a
  possibly-undefined value renders `"undefined"` (helper `jsStr`).
* JS `Map` objects are association lists with insert-at-front and
  first-match lookup (later `set` shadows earlier), JS `Set` objects are
  duplicate-free lists.
* The formatter's injected output sink (`state.writer`) is modelled as the
  list of chunks written so far (`written` field of `FormatterState`).
* JS strings are UTF-16 code-unit sequences; the model uses Lean `String`
  (Unicode scalars), which agrees on all BMP text.
-/

namespace OcCli

/-- JS string truthiness for a possibly-undefined string: `undefined`,
`null` and `""` are falsy. -/
def truthy : Option String → Bool
  | some s => s ≠ ""
  | none => false

/-- JS `String(x)` coercion of a possibly-undefined string (used when a
possibly-undefined value is interpolated into a template literal). -/
def jsStr : Option String → String
  | some s => s
  | none => "undefined"

/-- JS `a || b` on possibly-undefined strings: `a` when truthy, else `b`. -/
def jsOrStr (a b : Option String) : Option String :=
  match a with
  | some s => if s ≠ "" then some s else b
  | none => b

/-- JS `a || d` with a string literal default. -/
def jsOrDefault (a : Option String) (d : String) : String :=
  match a with
  | some s => if s ≠ "" then s else d
  | none => d

/-- JS `Map.get`: first-match lookup in an association list. -/
def mapGet (m : List (String × String)) (k : String) : Option String :=
  (m.find? (fun p => p.1 == k)).map (·.2)

/-- JS `Map.get` with a possibly-undefined key (`map.get(undefined)` is
`undefined`; all keys stored by the formatter are truthy strings). -/
def mapGetOpt (m : List (String × String)) (k : Option String) : Option String :=
  match k with
  | some s => mapGet m s
  | none => none

/-- JS `Map.set`: insert at the front so it shadows earlier bindings. -/
def mapSet (m : List (String × String)) (k v : String) : List (String × String) :=
  (k, v) :: m

/-- JS `Set.add` for string sets. -/
def setAdd (s : List String) (x : String) : List String :=
  if x ∈ s then s else x :: s

/-- JS `Set.delete` for string sets. -/
def setDelete (s : List String) (x : String) : List String :=
  s.filter (fun y => y ≠ x)

/-- JS `Set.add` for sets that may contain `undefined` (the tool-call
dedup set is fed `part?.callID` without a truthiness guard). -/
def setAddOpt (s : List (Option String)) (x : Option String) : List (Option String) :=
  if x ∈ s then s else x :: s

/-- JS `Set.has` for sets that may contain `undefined`. -/
def setHasOpt (s : List (Option String)) (x : Option String) : Bool :=
  s.contains x

/-! ### Whitespace cleaning and truncation (`truncate` in oc-cli.js) -/

/-- The whitespace class of the JS regexp `\s` (and of `String.trim`). -/
def isJsWhitespace (c : Char) : Bool :=
  c = ' ' || c = '\t' || c = '\n' || c = '\r' || c = '\x0b' || c = '\x0c' ||
  c = '\u00a0' || c = '\u1680' ||
  ('\u2000' ≤ c && c ≤ '\u200a') ||
  c = '\u2028' || c = '\u2029' || c = '\u202f' || c = '\u205f' ||
  c = '\u3000' || c = '\ufeff'

/-- Worker for `collapseWs`: the flag says whether we are inside a
whitespace run whose single replacement space was already emitted. -/
def collapseWsAux : Bool → List Char → List Char
  | _, [] => []
  | inRun, c :: rest =>
    if isJsWhitespace c then
      if inRun then collapseWsAux true rest
      else ' ' :: collapseWsAux true rest
    else c :: collapseWsAux false rest

/-- `text.replace(/\s+/g, " ")`: collapse each maximal whitespace run to a
single space. -/
def collapseWs (l : List Char) : List Char :=
  collapseWsAux false l

/-- `s.trim()`: strip leading and trailing whitespace. -/
def trimWs (l : List Char) : List Char :=
  ((l.dropWhile isJsWhitespace).reverse.dropWhile isJsWhitespace).reverse

/-- `text.replace(/\s+/g, " ").trim()` as one string-to-string cleaning pass. -/
def cleanWs (text : String) : String :=
  String.mk (trimWs (collapseWs text.data))

/-- `truncate(text, maxLen)` from oc-cli.js: clean whitespace, then cut the
cleaned string to `maxLen` characters and append an ellipsis when it is
longer than `maxLen`. -/
def truncate (text : String) (maxLen : Nat) : String :=
  let cleaned := cleanWs text
  if cleaned.length > maxLen then String.mk (cleaned.data.take maxLen) ++ "…"
  else cleaned

/-! ### Event data model

One raw SSE event is `{ type, properties }` where the shape of
`properties` varies per `type` and every nested field is optional
(defensively read in the source). Each field below records exactly the
accesses the source performs on it. -/

/-- `properties.error.data` object (`session.error` message extraction). -/
structure ErrData where
  message : Option String := none
deriving Repr, DecidableEq

/-- `properties.error` object. -/
structure ErrorObj where
  data : Option ErrData := none
  message : Option String := none
deriving Repr, DecidableEq

/-- `properties.status` object (`session.status`). -/
structure StatusObj where
  type : Option String := none
  attempt : Option Nat := none
  message : Option String := none
deriving Repr, DecidableEq

/-- `properties.info` object (session / message metadata). -/
structure InfoObj where
  id : Option String := none
  sessionID : Option String := none
  role : Option String := none
  providerID : Option String := none
  modelID : Option String := none
  title : Option String := none
  slug : Option String := none
deriving Repr, DecidableEq

/-- `part.state` object of a tool part. -/
structure ToolStateObj where
  status : Option String := none
  title : Option String := none
  error : Option String := none
deriving Repr, DecidableEq

/-- `properties.part` object (`message.part.updated`). -/
structure PartObj where
  type : Option String := none
  id : Option String := none
  messageID : Option String := none
  sessionID : Option String := none
  text : Option String := none
  tool : Option String := none
  callID : Option String := none
  state : Option ToolStateObj := none
  description : Option String := none
deriving Repr, DecidableEq

/-- One entry of `properties.diff` (`session.diff`). -/
structure DiffEntry where
  path : Option String := none
  filename : Option String := none
  additions : Option Int := none
  deletions : Option Int := none
deriving Repr, DecidableEq

/-- One option of a question (`question.asked`). -/
structure QOption where
  label : Option String := none
  description : Option String := none
deriving Repr, DecidableEq

/-- One entry of `properties.questions` (`question.asked`). -/
structure QuestionObj where
  question : Option String := none
  header : Option String := none
  options : Option (List QOption) := none
  multiple : Option Bool := none
deriving Repr, DecidableEq

/-- One entry of `properties.todos` (`todo.updated`). -/
structure TodoObj where
  status : Option String := none
  content : Option String := none
deriving Repr, DecidableEq

/-- The `properties` bag of one event. An absent `properties` object
(`event.properties ?? {}`) is the record with every field `none`. -/
structure Props where
  sessionID : Option String := none
  messageID : Option String := none
  partID : Option String := none
  delta : Option String := none
  field : Option String := none
  id : Option String := none
  info : Option InfoObj := none
  part : Option PartObj := none
  error : Option ErrorObj := none
  status : Option StatusObj := none
  file : Option String := none
  diff : Option (List DiffEntry) := none
  permission : Option String := none
  patterns : Option (List String) := none
  title : Option String := none
  reply : Option String := none
  response : Option String := none
  questions : Option (List QuestionObj) := none
  todos : Option (List TodoObj) := none
  answers : Option (List (List String)) := none
deriving Repr, DecidableEq

/-- One raw SSE event. -/
structure Event where
  type : String
  properties : Props := {}
deriving Repr, DecidableEq

/-! ### Formatter state (`FormatterState` / `createFormatterState`) -/

/-- Mutable context carried across one stream subscription. The injected
output stream (`writer`) is modelled by `written`, the list of chunks
written to it so far. -/
structure FormatterState where
  messageRoles : List (String × String)
  messageModels : List (String × String)
  messageSessions : List (String × String)
  streamedParts : List String
  toolsShown : List (Option String)
  lastPartType : String
  hasOutput : Bool
  assistantHeaderShown : List String
  userHeaderShown : List String
  written : List String
deriving Repr, DecidableEq

/-- `createFormatterState(writer)`: everything starts empty. -/
def createFormatterState : FormatterState where
  messageRoles := []
  messageModels := []
  messageSessions := []
  streamedParts := []
  toolsShown := []
  lastPartType := ""
  hasOutput := false
  assistantHeaderShown := []
  userHeaderShown := []
  written := []

/-- `separator()`: a dimmed 50-character rule. -/
def separator : String :=
  String.mk (List.replicate 50 '─')

/-- `endStreaming(state)`: terminate an in-progress text stream with a
newline before block output. -/
def endStreaming (state : FormatterState) : FormatterState :=
  if state.lastPartType = "text-stream" || state.lastPartType = "reasoning" then
    { state with written := state.written ++ ["\n"] }
  else state

/-- The visible text of the assistant header line for a given model
annotation (chalk styling stripped). -/
def assistantHeaderLine (model : String) : String :=
  "Assistant" ++ (if model ≠ "" then " (" ++ model ++ ")" else "")

/-- `ensureHeader(messageId, role, model, state, lines)`: print a
User/Assistant header once per contiguous same-role run in a session.
Returns the updated state and the grown `lines` array. -/
def ensureHeader (messageId : Option String) (role model : String)
    (state : FormatterState) (lines : List String) : FormatterState × List String :=
  let sessionId := (mapGetOpt state.messageSessions messageId).getD ""
  if role = "assistant" then
    if state.assistantHeaderShown.contains sessionId then (state, lines)
    else
      let state := { state with
        assistantHeaderShown := setAdd state.assistantHeaderShown sessionId,
        userHeaderShown := setDelete state.userHeaderShown sessionId }
      let state := endStreaming state
      let lines := if state.hasOutput then lines ++ [""] else lines
      (state, lines ++ [assistantHeaderLine model])
  else if role = "user" then
    if state.userHeaderShown.contains sessionId then (state, lines)
    else
      let state := { state with
        userHeaderShown := setAdd state.userHeaderShown sessionId,
        assistantHeaderShown := setDelete state.assistantHeaderShown sessionId }
      let state := endStreaming state
      let lines := if state.hasOutput then lines ++ [""] else lines
      (state, lines ++ ["User"])
  else (state, lines)

/-! ### Event classifier (`formatEvent`)

The source is one `switch` building a mutable `lines` array. Branches
ending in `break` fall through to the common postlude
`if (lines.length > 0) state.hasOutput = true` (modelled by `finish`);
branches ending in `return []` skip it. Each `case` body is one
definition here. -/

/-- The common postlude after the `switch`: mark that output happened
when the branch produced lines. -/
def finish (lines : List String) (state : FormatterState) : List String × FormatterState :=
  if lines.length > 0 then (lines, { state with hasOutput := true }) else (lines, state)

/-- `streamedParts.has(partId)` where `partId` may be `undefined`. -/
def streamedHas (s : List String) (k : Option String) : Bool :=
  match k with
  | some p => s.contains p
  | none => false

/-- The `session.error` message fallback chain:
`error.data.message ?? error.message ?? "Unknown error"` (shared by the
classifier's `session.error` case and the wait loop). -/
def extractErrorMessage (props : Props) : String :=
  let err := props.error
  let errData := err.bind ErrorObj.data
  match errData.bind ErrData.message with
  | some m => m
  | none =>
    match err.bind ErrorObj.message with
    | some m => m
    | none => "Unknown error"

/-- `case "session.created"`. -/
def formatSessionCreated (props : Props) (state : FormatterState) :
    List String × FormatterState :=
  let info := props.info
  let state := endStreaming state
  let lines := if state.hasOutput then [separator] else []
  let name := jsOrDefault (jsOrStr (info.bind InfoObj.title) (info.bind InfoObj.slug)) ""
  finish (lines ++ ["+ Session " ++ name ++ " " ++ jsStr (info.bind InfoObj.id)]) state

/-- `case "session.deleted"`. -/
def formatSessionDeleted (props : Props) (state : FormatterState) :
    List String × FormatterState :=
  let info := props.info
  let state := endStreaming state
  let lines := if state.hasOutput then [separator] else []
  finish (lines ++ ["- Session deleted " ++ jsStr (info.bind InfoObj.id)]) state

/-- `case "session.status"`: only the `retry` subtype produces a line. -/
def formatSessionStatus (props : Props) (state : FormatterState) :
    List String × FormatterState :=
  let status := props.status
  if status.bind StatusObj.type = some "retry" then
    let state := endStreaming state
    let attempt := status.bind StatusObj.attempt
    let msg := status.bind StatusObj.message
    let line := "Retrying (#" ++ (match attempt with | some n => toString n | none => "undefined")
      ++ ")" ++ (if truthy msg then " — " ++ msg.getD "" else "")
    finish [line] state
  else ([], state)

/-- `case "session.error"`. -/
def formatSessionError (props : Props) (state : FormatterState) :
    List String × FormatterState :=
  let state := endStreaming state
  finish ["Error: " ++ extractErrorMessage props] state

/-- `case "message.updated"`: silently record role / session / model. -/
def formatMessageUpdated (props : Props) (state : FormatterState) :
    List String × FormatterState :=
  let info := props.info
  let msgId := info.bind InfoObj.id
  let role := info.bind InfoObj.role
  let sessId := info.bind InfoObj.sessionID
  if truthy msgId && truthy role then
    let state := { state with
      messageRoles := mapSet state.messageRoles (msgId.getD "") (role.getD "") }
    let state := if truthy sessId then
        { state with messageSessions := mapSet state.messageSessions (msgId.getD "") (sessId.getD "") }
      else state
    if role = some "assistant" then
      let provider := info.bind InfoObj.providerID
      let model := info.bind InfoObj.modelID
      if truthy provider && truthy model then
        ([], { state with
          messageModels := mapSet state.messageModels (msgId.getD "")
            (provider.getD "" ++ "/" ++ model.getD "") })
      else ([], state)
    else ([], state)
  else ([], state)

/-- `case "message.part.delta"`: streaming text chunks, written directly
to the output sink, never returned as lines. -/
def formatMessagePartDelta (props : Props) (state : FormatterState) :
    List String × FormatterState :=
  let messageId := props.messageID
  let partId := props.partID
  let sessionId := props.sessionID
  let delta := props.delta
  let field := props.field
  if !truthy delta then ([], state)
  else
    let state := if truthy partId then
        { state with streamedParts := setAdd state.streamedParts (partId.getD "") }
      else state
    let state := if truthy messageId && truthy sessionId then
        { state with messageSessions := mapSet state.messageSessions (messageId.getD "") (sessionId.getD "") }
      else state
    let role := (mapGetOpt state.messageRoles messageId).getD "assistant"
    let model := (mapGetOpt state.messageModels messageId).getD ""
    if field = some "text" then
      let hd := ensureHeader messageId role model state []
      let state := hd.1
      let state := { state with
        written := state.written ++ hd.2.map (· ++ "\n") ++ [delta.getD ""],
        lastPartType := "text-stream",
        hasOutput := true }
      ([], state)
    else ([], state)

/-- `case "message.part.updated"`, `part.type == "text"`. -/
def formatTextPart (part : PartObj) (messageId : Option String) (role model : String)
    (state : FormatterState) : List String × FormatterState :=
  let partId := part.id
  let text := (part.text).getD ""
  if streamedHas state.streamedParts partId then ([], state)
  else if text = "" then ([], state)
  else if role = "user" then
    let hd := ensureHeader messageId role model state []
    let state := endStreaming hd.1
    let lines := hd.2 ++ (text.splitOn "\n").map (fun line => "> " ++ line)
    finish lines { state with lastPartType := "user-text" }
  else
    let hd := ensureHeader messageId role model state []
    let state := endStreaming hd.1
    let lines := hd.2 ++ [text]
    finish lines { state with lastPartType := "text" }

/-- `case "message.part.updated"`, `part.type == "tool"`. -/
def formatToolPart (part : PartObj) (messageId : Option String) (role model : String)
    (state : FormatterState) : List String × FormatterState :=
  let toolState := part.state
  let toolName := part.tool
  let status := toolState.bind ToolStateObj.status
  let callId := part.callID
  let title := toolState.bind ToolStateObj.title
  let displayName := jsStr (jsOrStr title toolName)
  if status = some "pending" then ([], state)
  else if status = some "running" then
    if setHasOpt state.toolsShown callId then ([], state)
    else
      let state := { state with toolsShown := setAddOpt state.toolsShown callId }
      let hd := ensureHeader messageId role model state []
      let state := endStreaming hd.1
      let lines := hd.2 ++ ["  " ++ displayName]
      finish lines { state with lastPartType := "tool" }
  else if status = some "completed" then
    if !setHasOpt state.toolsShown callId then
      let hd := ensureHeader messageId role model state []
      let state := endStreaming hd.1
      let lines := hd.2 ++ ["  " ++ displayName]
      finish lines { state with lastPartType := "tool" }
    else
      finish [] { state with lastPartType := "tool" }
  else if status = some "error" then
    let errMsg := toolState.bind ToolStateObj.error
    let hd := ensureHeader messageId role model state []
    let state := endStreaming hd.1
    let lines := hd.2 ++ ["  " ++ displayName ++ " — " ++ truncate (jsOrDefault errMsg "failed") 60]
    finish lines { state with lastPartType := "tool" }
  else ([], state)

/-- `case "message.part.updated"`, `part.type == "subtask"`. -/
def formatSubtaskPart (part : PartObj) (messageId : Option String) (role model : String)
    (state : FormatterState) : List String × FormatterState :=
  let desc := part.description
  let hd := ensureHeader messageId role model state []
  let state := endStreaming hd.1
  let lines := hd.2 ++ ["  Subtask " ++ truncate (jsOrDefault desc "") 60]
  finish lines { state with lastPartType := "subtask" }

/-- `case "message.part.updated"`: session bookkeeping, then dispatch on
the part type (`step-start` / `step-finish` / unknown produce nothing). -/
def formatMessagePartUpdated (props : Props) (state : FormatterState) :
    List String × FormatterState :=
  let part := props.part
  let partType := part.bind PartObj.type
  let messageId := part.bind PartObj.messageID
  let sessionId := part.bind PartObj.sessionID
  let state := if truthy messageId && truthy sessionId then
      { state with messageSessions := mapSet state.messageSessions (messageId.getD "") (sessionId.getD "") }
    else state
  let role := (mapGetOpt state.messageRoles messageId).getD "unknown"
  let model := (mapGetOpt state.messageModels messageId).getD ""
  match partType with
  | some "text" => formatTextPart (part.getD {}) messageId role model state
  | some "tool" => formatToolPart (part.getD {}) messageId role model state
  | some "step-start" => ([], state)
  | some "step-finish" => ([], state)
  | some "subtask" => formatSubtaskPart (part.getD {}) messageId role model state
  | _ => ([], state)

/-- One line of `case "session.diff"`. -/
def diffLine (d : DiffEntry) : String :=
  let path := ((d.path).orElse (fun _ => d.filename)).getD ""
  let additions := (d.additions).getD 0
  let deletions := (d.deletions).getD 0
  let stats := String.intercalate " "
    ((if additions > 0 then ["+" ++ toString additions] else []) ++
     (if deletions > 0 then ["-" ++ toString deletions] else []))
  "  " ++ path ++ " " ++ stats

/-- `case "session.diff"`: at most 8 per-file lines plus a summary. -/
def formatSessionDiff (props : Props) (state : FormatterState) :
    List String × FormatterState :=
  let diffs := (props.diff).getD []
  if diffs.length = 0 then ([], state)
  else
    let lines := (diffs.take 8).map diffLine
    let lines := if diffs.length > 8 then
        lines ++ ["  … and " ++ toString (diffs.length - 8) ++ " more files"]
      else lines
    finish lines state

/-- `case "permission.asked"`. -/
def formatPermissionAsked (props : Props) (state : FormatterState) :
    List String × FormatterState :=
  let permission := props.permission
  let patterns := (props.patterns).getD []
  let requestId := props.id
  let state := endStreaming state
  let lines := [""] ++ ["Permission required: " ++ jsStr permission] ++
    patterns.map (fun p => "  " ++ p) ++
    ["  oc-cli session permit " ++ jsStr requestId ++ " [once|always|reject]"] ++ [""]
  finish lines state

/-- `case "permission.updated"`. -/
def formatPermissionUpdated (props : Props) (state : FormatterState) :
    List String × FormatterState :=
  let state := endStreaming state
  finish ["Permission: " ++ jsStr props.title] state

/-- `case "permission.replied"`. -/
def formatPermissionReplied (props : Props) (state : FormatterState) :
    List String × FormatterState :=
  let reply := ((props.reply).orElse (fun _ => props.response)).getD ""
  finish [if reply = "reject" then "Rejected" else "Permitted (" ++ reply ++ ")"] state

/-- Hex digit for JSON string escapes. -/
def hexDigitChar (n : Nat) : Char :=
  if n < 10 then Char.ofNat (48 + n) else Char.ofNat (87 + n)

/-- `JSON.stringify` escaping of one character inside a string literal. -/
def jsonEscapeChar (c : Char) : String :=
  if c = '"' then "\\\""
  else if c = '\\' then "\\\\"
  else if c = '\n' then "\\n"
  else if c = '\t' then "\\t"
  else if c = '\r' then "\\r"
  else if c = '\x08' then "\\b"
  else if c = '\x0c' then "\\f"
  else if c.toNat < 32 then "\\u00" ++ String.mk [hexDigitChar (c.toNat / 16), hexDigitChar (c.toNat % 16)]
  else String.singleton c

/-- `JSON.stringify` of a string. -/
def jsonStringifyString (s : String) : String :=
  "\"" ++ String.join (s.data.map jsonEscapeChar) ++ "\""

/-- `JSON.stringify` of a string array. -/
def jsonStringifyStringArray (l : List String) : String :=
  "[" ++ String.intercalate "," (l.map jsonStringifyString) ++ "]"

/-- `JSON.stringify` of the `answers` value (`string[][]`). -/
def jsonStringifyAnswers (ll : List (List String)) : String :=
  "[" ++ String.intercalate "," (ll.map jsonStringifyStringArray) ++ "]"

/-- Lines for one question of `case "question.asked"`. -/
def questionLines (q : QuestionObj) : List String :=
  let qOptions := (q.options).getD []
  let optLines := qOptions.enum.map (fun p =>
    "  " ++ toString (p.1 + 1) ++ ". " ++ jsStr p.2.label ++
      (if truthy p.2.description then " — " ++ (p.2.description).getD "" else ""))
  ["Question: " ++ jsStr q.question] ++
  (if truthy q.header then ["  " ++ (q.header).getD ""] else []) ++
  optLines ++
  (if (q.multiple).getD false then ["  (multiple selections allowed)"] else [])

/-- `case "question.asked"`. -/
def formatQuestionAsked (props : Props) (state : FormatterState) :
    List String × FormatterState :=
  let questions := (props.questions).getD []
  let requestId := props.id
  let state := endStreaming state
  let lines := [""] ++ (questions.map questionLines).flatten ++
    ["  oc-cli session answer " ++ jsStr requestId ++ " \"your answer\""] ++
    ["  oc-cli session reject " ++ jsStr requestId] ++ [""]
  finish lines state

/-- `case "question.replied"`. -/
def formatQuestionReplied (props : Props) (state : FormatterState) :
    List String × FormatterState :=
  finish ["Answered: " ++ jsonStringifyAnswers ((props.answers).getD [])] state

/-- One line of `case "todo.updated"`. -/
def todoLine (todo : TodoObj) : String :=
  let icon := if todo.status = some "completed" then "✓"
    else if todo.status = some "in_progress" then "▸"
    else if todo.status = some "cancelled" then "✗"
    else "○"
  "  " ++ icon ++ " " ++ jsStr todo.content

/-- `case "todo.updated"`. -/
def formatTodoUpdated (props : Props) (state : FormatterState) :
    List String × FormatterState :=
  let todos := (props.todos).getD []
  if todos.length = 0 then ([], state)
  else finish (todos.map todoLine) state

/-- `formatEvent(event, state)`: the full classifier `switch`. Returns
the display lines and the updated state; streaming deltas are reflected
in `state.written` instead. Unlisted types produce nothing. -/
def formatEvent (event : Event) (state : FormatterState) :
    List String × FormatterState :=
  let props := event.properties
  match event.type with
  | "server.connected" => finish ["Connected"] state
  | "session.created" => formatSessionCreated props state
  | "session.deleted" => formatSessionDeleted props state
  | "session.updated" => ([], state)
  | "session.status" => formatSessionStatus props state
  | "session.idle" => ([], state)
  | "session.compacted" => ([], state)
  | "session.error" => formatSessionError props state
  | "message.updated" => formatMessageUpdated props state
  | "message.removed" => ([], state)
  | "message.part.delta" => formatMessagePartDelta props state
  | "message.part.updated" => formatMessagePartUpdated props state
  | "message.part.removed" => ([], state)
  | "file.edited" => finish ["  Edited " ++ jsStr props.file] state
  | "session.diff" => formatSessionDiff props state
  | "permission.asked" => formatPermissionAsked props state
  | "permission.updated" => formatPermissionUpdated props state
  | "permission.replied" => formatPermissionReplied props state
  | "question.asked" => formatQuestionAsked props state
  | "question.replied" => formatQuestionReplied props state
  | "question.rejected" => finish ["Question rejected"] state
  | "todo.updated" => formatTodoUpdated props state
  | _ => ([], state)

/-! ### Session filter and wait engine (`src/src/lib/wait.ts`) -/

/-- `eventMatchesSession(evt, targetSessionId)`: check the four possible
locations of a session identifier, first match wins. -/
def eventMatchesSession (evt : Event) (targetSessionId : String) : Bool :=
  let p := evt.properties
  if p.sessionID = some targetSessionId then true
  else
    let info := p.info
    if info.bind InfoObj.id = some targetSessionId then true
    else if info.bind InfoObj.sessionID = some targetSessionId then true
    else
      let part := p.part
      if part.bind PartObj.sessionID = some targetSessionId then true
      else false

/-- The wait loop's client-side filter: skip events not for our session,
except the global `server.connected`. -/
def passesFilter (evt : Event) (sessionId : String) : Bool :=
  evt.type = "server.connected" || eventMatchesSession evt sessionId

/-- The tagged wait outcome (`WaitResult` in wait.ts). -/
inductive WaitStatus
  | idle
  | error
  | timeout
deriving Repr, DecidableEq

/-- `{ status, error?, event? }` returned by `waitForSession`. -/
structure WaitResult where
  status : WaitStatus
  error : Option String := none
  event : Option Event := none
deriving Repr, DecidableEq

/-- The `for await` body of `waitForSession`, run over the events the
subscription delivers: filter, auto-approve permission requests, and
stop at the first terminal event. Returns the request ids replied to
with "always" and the terminal result (`none` when the stream ran dry
before a terminal event). -/
def processEvents (sessionId : String) (autoApprove : Bool) :
    List Event → List String × Option WaitResult
  | [] => ([], none)
  | evt :: rest =>
    if evt.type ≠ "server.connected" && !eventMatchesSession evt sessionId then
      processEvents sessionId autoApprove rest
    else
      let replies :=
        if evt.type = "permission.asked" && autoApprove then
          match evt.properties.id with
          | some requestId => if requestId ≠ "" then [requestId] else []
          | none => []
        else []
      if evt.type = "session.idle" then
        (replies, some { status := .idle, event := some evt })
      else if evt.type = "session.error" then
        (replies, some { status := .error,
                         error := some (extractErrorMessage evt.properties),
                         event := some evt })
      else
        let r := processEvents sessionId autoApprove rest
        (replies ++ r.1, r.2)

/-- Options of `waitForSession` (the formatter mirroring options do not
affect the returned outcome). -/
structure WaitOptions where
  timeout : Option Nat := none
  stream : Bool := false
  pretty : Bool := false
  autoApprove : Bool := false
deriving Repr, DecidableEq

/-- How one subscription run ends after delivering its events: the
stream closes normally, or the iteration unwinds with an exception of
the given name (`"AbortError"` when the shared abort controller fired). -/
inductive StreamEnding
  | normal
  | raised (name : String)
deriving Repr, DecidableEq

/-- The environment of one `waitForSession` execution: the events the
subscription delivered before ending, how the iteration ended, and
whether our timeout timer's callback ran (it sets the `timedOut` flag
and aborts the shared controller). -/
structure WaitRun where
  delivered : List Event
  ending : StreamEnding
  timerFired : Bool
deriving Repr, DecidableEq

/-- How `waitForSession` hands control back: a resolved `WaitResult`, or
an exception re-raised to the caller. -/
inductive WaitExit
  | result (r : WaitResult)
  | raised (name : String)
deriving Repr, DecidableEq

/-- `waitForSession(client, sessionId, options)` over one execution
environment. Mirrors the `try / catch / finally` of the source: the loop
body is `processEvents`; a stream that ends without a terminal event
resolves as a failure; an `AbortError` is classified by the `timedOut`
flag (timeout outcome vs. re-raised cancellation); any other exception
propagates; the `finally` always disarms the timer. The second component
is whether the timeout timer is still pending afterwards. -/
def waitForSession (sessionId : String) (opts : WaitOptions) (run : WaitRun) :
    WaitExit × Bool :=
  -- `if (options?.timeout)` — a timer is armed only for a truthy (nonzero) timeout
  let timerArmed := match opts.timeout with
    | some t => t ≠ 0
    | none => false
  let timedOut := run.timerFired
  let body : Except String WaitResult :=
    match (processEvents sessionId opts.autoApprove run.delivered).2 with
    | some r => .ok r
    | none =>
      match run.ending with
      | .normal => .ok { status := .error, error := some "SSE stream ended unexpectedly" }
      | .raised name => .error name
  let exit : WaitExit :=
    match body with
    | .ok r => .result r
    | .error name =>
      if name = "AbortError" then
        if timedOut then .result { status := .timeout }
        else .raised name
      else .raised name
  -- a fired timer is no longer pending; `finally` clears any armed timer
  let timerPending := timerArmed && !run.timerFired
  let timerPending := if timerArmed then false else timerPending
  (exit, timerPending)

/-! ### Pre-flight status probe (`checkSessionStatus`) -/

/-- One entry of the server's status map (`SessionStatus` of the SDK). -/
structure SessionStatus where
  type : String
  attempt : Option Nat := none
  message : Option String := none
  next : Option Nat := none
deriving Repr, DecidableEq

/-- First-match lookup in the fetched status map. -/
def statusMapGet (m : List (String × SessionStatus)) (k : String) : Option SessionStatus :=
  (m.find? (fun p => p.1 == k)).map (·.2)

/-- The remote endpoints `checkSessionStatus` consults: `session.get`
(fails distinguishably) and `session.status` (the sessionID → status
map). -/
structure ClientModel where
  getSession : Except String Unit
  statusMap : Except String (List (String × SessionStatus))
deriving Repr

/-- Modelled from the spec: `checkSessionStatus` is exported by
`src/lib/wait.ts` but its body is not among the sources (only its tests
and its caller in `src/commands/session.ts` are). Per §4.3 of the spec:
fetch the session by id and propagate a fetch failure untouched without
calling the status endpoint; otherwise fetch the status map; no entry
for the session means idle; an entry is returned verbatim. The second
component records whether the status endpoint was called. -/
def checkSessionStatus (client : ClientModel) (sessionId : String) :
    Except String SessionStatus × Bool :=
  match client.getSession with
  | .error e => (.error e, false)
  | .ok _ =>
    match client.statusMap with
    | .error e => (.error e, true)
    | .ok m =>
      match statusMapGet m sessionId with
      | some st => (.ok st, true)
      | none => (.ok { type := "idle" }, true)

/-! ### Lemmas about whitespace cleaning -/

theorem collapseWsAux_mem (l : List Char) :
    ∀ b, ∀ c ∈ collapseWsAux b l, isJsWhitespace c = true → c = ' ' := by
  induction l with
  | nil => intro b c hc; simp [collapseWsAux] at hc
  | cons a l ih =>
    intro b c hc hwc
    rw [collapseWsAux] at hc
    by_cases hws : isJsWhitespace a
    · rw [if_pos hws] at hc
      cases b with
      | true => exact ih true c (by simpa using hc) hwc
      | false =>
        rcases List.mem_cons.mp (by simpa using hc) with h | h
        · exact h
        · exact ih true c h hwc
    · rw [if_neg hws] at hc
      rcases List.mem_cons.mp hc with h | h
      · exact absurd (h ▸ hwc) (by simpa using hws)
      · exact ih false c h hwc

theorem collapseWs_mem (l : List Char) :
    ∀ c ∈ collapseWs l, isJsWhitespace c = true → c = ' ' :=
  fun c hc => collapseWsAux_mem l false c hc

theorem dropWhile_head_false {α} (p : α → Bool) (l : List α) :
    ∀ c, (l.dropWhile p).head? = some c → p c = false := by
  induction l with
  | nil => intro c hc; simp at hc
  | cons a l ih =>
    intro c hc
    rw [List.dropWhile_cons] at hc
    by_cases hp : p a
    · rw [if_pos hp] at hc
      exact ih c hc
    · rw [if_neg hp] at hc
      simp only [List.head?_cons, Option.some.injEq] at hc
      subst hc
      simpa using hp

theorem collapseWsAux_true_head (l : List Char) :
    ∀ c, (collapseWsAux true l).head? = some c → isJsWhitespace c = false := by
  induction l with
  | nil => intro c hc; simp [collapseWsAux] at hc
  | cons a l ih =>
    intro c hc
    rw [collapseWsAux] at hc
    by_cases hws : isJsWhitespace a
    · rw [if_pos hws, if_pos rfl] at hc
      exact ih c hc
    · rw [if_neg hws] at hc
      simp only [List.head?_cons, Option.some.injEq] at hc
      subst hc
      simpa using hws

/-- Collapsing leaves no two adjacent spaces. -/
theorem collapseWsAux_chain (l : List Char) :
    ∀ b, List.Chain' (fun a c => ¬(a = ' ' ∧ c = ' ')) (collapseWsAux b l) := by
  induction l with
  | nil => intro b; simp [collapseWsAux]
  | cons a l ih =>
    intro b
    rw [collapseWsAux]
    by_cases hws : isJsWhitespace a
    · rw [if_pos hws]
      cases b with
      | true => exact ih true
      | false =>
        simp only [Bool.false_eq_true, if_false]
        rw [List.chain'_cons']
        refine ⟨?_, ih true⟩
        intro c hc hac
        have h1 := collapseWsAux_true_head l c hc
        rw [hac.2] at h1
        simp [isJsWhitespace] at h1
    · rw [if_neg hws]
      rw [List.chain'_cons']
      refine ⟨?_, ih false⟩
      intro c _ hac
      apply hws
      rw [hac.1]
      simp [isJsWhitespace]

theorem collapseWs_chain (l : List Char) :
    List.Chain' (fun a b => ¬(a = ' ' ∧ b = ' ')) (collapseWs l) :=
  collapseWsAux_chain l false

theorem chain_dropWhile {α} {R : α → α → Prop} (p : α → Bool) {l : List α}
    (h : List.Chain' R l) : List.Chain' R (l.dropWhile p) := by
  induction l with
  | nil => simp
  | cons a l ih =>
    rw [List.dropWhile_cons]
    by_cases hp : p a
    · rw [if_pos hp]
      exact ih h.tail
    · rw [if_neg hp]
      exact h

theorem getLast?_cons_ne_nil {α} (a : α) {l : List α} (h : l ≠ []) :
    (a :: l).getLast? = l.getLast? := by
  cases l with
  | nil => exact absurd rfl h
  | cons b m => simp [List.getLast?]

theorem getLast?_dropWhile {α} (p : α → Bool) (l : List α)
    (h : l.dropWhile p ≠ []) : (l.dropWhile p).getLast? = l.getLast? := by
  induction l with
  | nil => simp at h
  | cons a l ih =>
    rw [List.dropWhile_cons]
    by_cases hp : p a
    · rw [List.dropWhile_cons, if_pos hp] at h
      rw [if_pos hp, ih h]
      have hl : l ≠ [] := by
        intro he; rw [he] at h; simp at h
      rw [getLast?_cons_ne_nil _ hl]
    · rw [if_neg hp]

/-- `trimWs` output boundaries carry no whitespace. -/
theorem trimWs_head (l : List Char) :
    ∀ c, (trimWs l).head? = some c → isJsWhitespace c = false := by
  intro c hc
  unfold trimWs at hc
  rw [List.head?_reverse] at hc
  set r := (l.dropWhile isJsWhitespace).reverse with hr
  have hne : r.dropWhile isJsWhitespace ≠ [] := by
    intro he; rw [he] at hc; simp at hc
  rw [getLast?_dropWhile _ _ hne] at hc
  rw [hr, List.getLast?_reverse] at hc
  exact dropWhile_head_false _ _ c hc

theorem trimWs_getLast (l : List Char) :
    ∀ c, (trimWs l).getLast? = some c → isJsWhitespace c = false := by
  intro c hc
  unfold trimWs at hc
  rw [List.getLast?_reverse] at hc
  exact dropWhile_head_false _ _ c hc

theorem trimWs_sub (l : List Char) : ∀ c ∈ trimWs l, c ∈ l := by
  intro c hc
  unfold trimWs at hc
  rw [List.mem_reverse] at hc
  have h1 := List.dropWhile_sublist (l := (l.dropWhile isJsWhitespace).reverse)
    (p := isJsWhitespace)
  have h2 := h1.mem hc
  rw [List.mem_reverse] at h2
  exact (List.dropWhile_sublist _).mem h2

theorem trimWs_chain {R : Char → Char → Prop} {l : List Char}
    (h : List.Chain' R l) : List.Chain' R (trimWs l) := by
  unfold trimWs
  have h1 : List.Chain' R (l.dropWhile isJsWhitespace) := chain_dropWhile _ h
  have h2 : List.Chain' (flip R) ((l.dropWhile isJsWhitespace).reverse) := by
    rw [List.chain'_reverse]
    exact h1.imp (fun a b hab => hab)
  have h3 : List.Chain' (flip R) ((l.dropWhile isJsWhitespace).reverse.dropWhile isJsWhitespace) :=
    chain_dropWhile _ h2
  rw [List.chain'_reverse]
  exact h3

/-! ### Claim C7 — truncation -/

/-- A 90-character whitespace-heavy input: nine repetitions of
`"abcdefg"` each followed by three spaces. -/
def wsHeavy90 : String :=
  String.join (List.replicate 9 "abcdefg   ")

/-- C7 counterexample: the claim says truncating at budget 60 returns a
string of exactly 60 visible characters ending in an ellipsis, but on
this 90-character whitespace-heavy input (whose cleaned form has 71
characters) `truncate` returns 61 characters: the 60-character cut plus
the appended ellipsis marker. -/
theorem c7_truncate_counterexample :
    wsHeavy90.length = 90 ∧
    (cleanWs wsHeavy90).length = 71 ∧
    (truncate wsHeavy90 60).length = 61 ∧
    ¬((truncate wsHeavy90 60).length = 60) ∧
    (truncate wsHeavy90 60).data.getLast? = some '…' := by
  decide

/-- C7 (amended): `truncate` first collapses every whitespace run of its
input to a single space and trims (so the cleaned string has no
whitespace other than single interior spaces and no boundary
whitespace), measures length on the cleaned string, and when that length
exceeds the budget returns the budget-length cut of the cleaned string
followed by an ellipsis marker — i.e. budget + 1 visible characters
ending in an ellipsis, not budget characters. -/
theorem c7_truncate_amended (text : String) (maxLen : Nat)
    (h : maxLen < (cleanWs text).length) :
    (truncate text maxLen).length = maxLen + 1 ∧
    (truncate text maxLen).data = (cleanWs text).data.take maxLen ++ ['…'] ∧
    (∀ c ∈ (cleanWs text).data, isJsWhitespace c = true → c = ' ') ∧
    List.Chain' (fun a b => ¬(a = ' ' ∧ b = ' ')) (cleanWs text).data ∧
    (∀ c, (cleanWs text).data.head? = some c → isJsWhitespace c = false) ∧
    (∀ c, (cleanWs text).data.getLast? = some c → isJsWhitespace c = false) := by
  have hdata : (truncate text maxLen).data = (cleanWs text).data.take maxLen ++ ['…'] := by
    unfold truncate
    rw [if_pos h]
    rfl
  have hlen : (truncate text maxLen).length = maxLen + 1 := by
    show (truncate text maxLen).data.length = maxLen + 1
    rw [hdata, List.length_append, List.length_take]
    simp [Nat.min_eq_left (Nat.le_of_lt h)]
  refine ⟨hlen, hdata, ?_, ?_, ?_, ?_⟩
  · intro c hc hwc
    exact collapseWs_mem text.data c (trimWs_sub _ c hc) hwc
  · exact trimWs_chain (collapseWs_chain text.data)
  · exact trimWs_head _
  · exact trimWs_getLast _

/-! ### Classifier state lemmas

`streamedParts` only ever grows, and only the `message.part.delta` case
touches it. -/

theorem streamedParts_finish (l : List String) (s : FormatterState) :
    (finish l s).2.streamedParts = s.streamedParts := by
  unfold finish
  split <;> rfl

theorem streamedParts_endStreaming (s : FormatterState) :
    (endStreaming s).streamedParts = s.streamedParts := by
  unfold endStreaming
  split <;> rfl

theorem streamedParts_ensureHeader (mid : Option String) (role model : String)
    (s : FormatterState) (l : List String) :
    (ensureHeader mid role model s l).1.streamedParts = s.streamedParts := by
  unfold ensureHeader
  dsimp only
  split_ifs <;> simp [streamedParts_endStreaming]

theorem streamedParts_formatSessionCreated (props : Props) (s : FormatterState) :
    (formatSessionCreated props s).2.streamedParts = s.streamedParts := by
  unfold formatSessionCreated
  rw [streamedParts_finish, streamedParts_endStreaming]

theorem streamedParts_formatSessionDeleted (props : Props) (s : FormatterState) :
    (formatSessionDeleted props s).2.streamedParts = s.streamedParts := by
  unfold formatSessionDeleted
  rw [streamedParts_finish, streamedParts_endStreaming]

theorem streamedParts_formatSessionStatus (props : Props) (s : FormatterState) :
    (formatSessionStatus props s).2.streamedParts = s.streamedParts := by
  unfold formatSessionStatus
  dsimp only
  split_ifs <;> simp [streamedParts_finish, streamedParts_endStreaming]

theorem streamedParts_formatSessionError (props : Props) (s : FormatterState) :
    (formatSessionError props s).2.streamedParts = s.streamedParts := by
  unfold formatSessionError
  rw [streamedParts_finish, streamedParts_endStreaming]

theorem streamedParts_formatMessageUpdated (props : Props) (s : FormatterState) :
    (formatMessageUpdated props s).2.streamedParts = s.streamedParts := by
  unfold formatMessageUpdated
  dsimp only
  split_ifs <;> rfl

theorem streamedParts_formatTextPart (part : PartObj) (mid : Option String)
    (role model : String) (s : FormatterState) :
    (formatTextPart part mid role model s).2.streamedParts = s.streamedParts := by
  unfold formatTextPart
  dsimp only
  split_ifs <;>
    simp [streamedParts_finish, streamedParts_endStreaming, streamedParts_ensureHeader]

theorem streamedParts_formatToolPart (part : PartObj) (mid : Option String)
    (role model : String) (s : FormatterState) :
    (formatToolPart part mid role model s).2.streamedParts = s.streamedParts := by
  unfold formatToolPart
  dsimp only
  split_ifs <;>
    simp [streamedParts_finish, streamedParts_endStreaming, streamedParts_ensureHeader]

theorem streamedParts_formatSubtaskPart (part : PartObj) (mid : Option String)
    (role model : String) (s : FormatterState) :
    (formatSubtaskPart part mid role model s).2.streamedParts = s.streamedParts := by
  unfold formatSubtaskPart
  simp [streamedParts_finish, streamedParts_endStreaming, streamedParts_ensureHeader]

theorem streamedParts_formatMessagePartUpdated (props : Props) (s : FormatterState) :
    (formatMessagePartUpdated props s).2.streamedParts = s.streamedParts := by
  unfold formatMessagePartUpdated
  dsimp only
  split <;>
    simp [streamedParts_formatTextPart, streamedParts_formatToolPart,
      streamedParts_formatSubtaskPart] <;>
    split_ifs <;> rfl

theorem streamedParts_formatSessionDiff (props : Props) (s : FormatterState) :
    (formatSessionDiff props s).2.streamedParts = s.streamedParts := by
  unfold formatSessionDiff
  dsimp only
  split_ifs <;> simp [streamedParts_finish]

theorem streamedParts_formatPermissionAsked (props : Props) (s : FormatterState) :
    (formatPermissionAsked props s).2.streamedParts = s.streamedParts := by
  unfold formatPermissionAsked
  rw [streamedParts_finish, streamedParts_endStreaming]

theorem streamedParts_formatPermissionUpdated (props : Props) (s : FormatterState) :
    (formatPermissionUpdated props s).2.streamedParts = s.streamedParts := by
  unfold formatPermissionUpdated
  rw [streamedParts_finish, streamedParts_endStreaming]

theorem streamedParts_formatPermissionReplied (props : Props) (s : FormatterState) :
    (formatPermissionReplied props s).2.streamedParts = s.streamedParts := by
  unfold formatPermissionReplied
  rw [streamedParts_finish]

theorem streamedParts_formatQuestionAsked (props : Props) (s : FormatterState) :
    (formatQuestionAsked props s).2.streamedParts = s.streamedParts := by
  unfold formatQuestionAsked
  rw [streamedParts_finish, streamedParts_endStreaming]

theorem streamedParts_formatQuestionReplied (props : Props) (s : FormatterState) :
    (formatQuestionReplied props s).2.streamedParts = s.streamedParts := by
  unfold formatQuestionReplied
  rw [streamedParts_finish]

theorem streamedParts_formatTodoUpdated (props : Props) (s : FormatterState) :
    (formatTodoUpdated props s).2.streamedParts = s.streamedParts := by
  unfold formatTodoUpdated
  dsimp only
  split_ifs <;> simp [streamedParts_finish]

theorem mem_setAdd (s : List String) (x y : String) (h : x ∈ s) : x ∈ setAdd s y := by
  unfold setAdd
  split
  · exact h
  · exact List.mem_cons_of_mem y h

theorem mem_setAdd_self (s : List String) (x : String) : x ∈ setAdd s x := by
  unfold setAdd
  split
  · assumption
  · exact List.mem_cons_self x s

theorem streamedParts_formatMessagePartDelta (props : Props) (s : FormatterState)
    (p : String) (h : p ∈ s.streamedParts) :
    p ∈ (formatMessagePartDelta props s).2.streamedParts := by
  unfold formatMessagePartDelta
  dsimp only
  split_ifs <;>
    simp [streamedParts_ensureHeader, mem_setAdd, h]

/-- Nothing ever removes a part from the streamed-parts set. -/
theorem formatEvent_streamedParts_mono (e : Event) (s : FormatterState) (p : String)
    (h : p ∈ s.streamedParts) : p ∈ (formatEvent e s).2.streamedParts := by
  unfold formatEvent
  dsimp only
  split
  · rw [streamedParts_finish]; exact h
  · rw [streamedParts_formatSessionCreated]; exact h
  · rw [streamedParts_formatSessionDeleted]; exact h
  · exact h
  · rw [streamedParts_formatSessionStatus]; exact h
  · exact h
  · exact h
  · rw [streamedParts_formatSessionError]; exact h
  · rw [streamedParts_formatMessageUpdated]; exact h
  · exact h
  · exact streamedParts_formatMessagePartDelta _ _ _ h
  · rw [streamedParts_formatMessagePartUpdated]; exact h
  · exact h
  · rw [streamedParts_finish]; exact h
  · rw [streamedParts_formatSessionDiff]; exact h
  · rw [streamedParts_formatPermissionAsked]; exact h
  · rw [streamedParts_formatPermissionUpdated]; exact h
  · rw [streamedParts_formatPermissionReplied]; exact h
  · rw [streamedParts_formatQuestionAsked]; exact h
  · rw [streamedParts_formatQuestionReplied]; exact h
  · rw [streamedParts_finish]; exact h
  · rw [streamedParts_formatTodoUpdated]; exact h
  · exact h

/-! ### Claim C3 — session filter -/

/-- C3: the Session Filter returns true iff one of the four session-id
locations (`properties.sessionID`, `properties.info.id`,
`properties.info.sessionID`, `properties.part.sessionID`) equals the
target; the wait loop's filter additionally always passes
`server.connected` and passes nothing else that does not match. -/
theorem c3_session_filter (evt : Event) (target : String) :
    (eventMatchesSession evt target = true ↔
      (evt.properties.sessionID = some target ∨
       evt.properties.info.bind InfoObj.id = some target ∨
       evt.properties.info.bind InfoObj.sessionID = some target ∨
       evt.properties.part.bind PartObj.sessionID = some target)) ∧
    (evt.type = "server.connected" → passesFilter evt target = true) ∧
    (passesFilter evt target = true ↔
      (evt.type = "server.connected" ∨ eventMatchesSession evt target = true)) := by
  refine ⟨?_, ?_, ?_⟩
  · unfold eventMatchesSession
    dsimp only
    split_ifs with h1 h2 h3 h4 <;> simp_all
  · intro h
    simp [passesFilter, h]
  · simp [passesFilter]

/-- A global connect event (carries no session context). -/
def evtConnected : Event :=
  { type := "server.connected" }

/-- A metadata event whose nested info object points at session "S". -/
def evtInfoS : Event :=
  { type := "message.updated", properties := { info := some { sessionID := some "S" } } }

/-- A metadata event whose nested info object points at session "T". -/
def evtInfoT : Event :=
  { type := "message.updated", properties := { info := some { sessionID := some "T" } } }

/-- C3 witness: the filter at concrete events — a global
`server.connected`, a matching nested-info event, and a non-matching
event. -/
theorem c3_session_filter_witness :
    passesFilter evtConnected "S" = true ∧
    eventMatchesSession evtInfoS "S" = true ∧
    eventMatchesSession evtInfoT "S" = false := by
  refine ⟨(c3_session_filter _ "S").2.1 rfl, ?_, ?_⟩
  · exact (c3_session_filter _ "S").1.mpr (Or.inr (Or.inr (Or.inl rfl)))
  · have h := (c3_session_filter evtInfoT "S").1
    by_contra hne
    have hb : eventMatchesSession evtInfoT "S" = true := by
      simpa using hne
    rcases h.mp hb with h1 | h1 | h1 | h1 <;> simp [evtInfoT] at h1

/-! ### Claims C1, C8, C2 — wait engine terminal behavior -/

/-- Events that pass the filter but are not terminal (and events that do
not pass it at all) are consumed without resolving the wait. -/
theorem processEvents_skip (sid : String) (auto : Bool) (pre : List Event)
    (hpre : ∀ e ∈ pre, passesFilter e sid = true →
      (e.type ≠ "session.idle" ∧ e.type ≠ "session.error")) (l : List Event) :
    (processEvents sid auto (pre ++ l)).2 = (processEvents sid auto l).2 := by
  induction pre with
  | nil => rfl
  | cons e pre ih =>
    have hpre' : ∀ x ∈ pre, passesFilter x sid = true →
        (x.type ≠ "session.idle" ∧ x.type ≠ "session.error") :=
      fun x hx => hpre x (List.mem_cons_of_mem e hx)
    rw [List.cons_append]
    by_cases hf : passesFilter e sid = true
    · have hni := (hpre e (List.mem_cons_self e pre) hf).1
      have hne := (hpre e (List.mem_cons_self e pre) hf).2
      have hcond : (decide (e.type ≠ "server.connected") && !eventMatchesSession e sid) = false := by
        rcases (by simpa [passesFilter] using hf : e.type = "server.connected" ∨
            eventMatchesSession e sid = true) with h | h
        · simp [h]
        · simp [h]
      rw [processEvents]
      simp only [hcond, Bool.false_eq_true, if_false]
      simp only [hni, hne, if_neg, if_false]
      simpa using ih hpre'
    · have hcond : (decide (e.type ≠ "server.connected") && !eventMatchesSession e sid) = true := by
        have := hf
        simp only [passesFilter, Bool.or_eq_true, decide_eq_true_eq] at this
        push_neg at this
        simp [this.1, this.2]
      rw [processEvents]
      simp only [hcond, if_true]
      exact ih hpre'

/-- C1: the wait loop resolves exactly at the first matching terminal
event: a matching `session.idle` resolves `{status: "idle"}`, a matching
`session.error` resolves `{status: "error"}` with the message drawn from
`error.data.message`, then `error.message`, then `"Unknown error"`; no
earlier matching non-terminal event resolves the wait. -/
theorem c1_wait_terminal (sid : String) (auto : Bool) (pre rest : List Event) (t : Event)
    (hpre : ∀ e ∈ pre, passesFilter e sid = true →
      (e.type ≠ "session.idle" ∧ e.type ≠ "session.error"))
    (ht : passesFilter t sid = true) :
    (processEvents sid auto pre).2 = none ∧
    (t.type = "session.idle" →
      (processEvents sid auto (pre ++ t :: rest)).2 =
        some { status := .idle, event := some t }) ∧
    (t.type = "session.error" →
      (processEvents sid auto (pre ++ t :: rest)).2 =
        some { status := .error, error := some (extractErrorMessage t.properties),
               event := some t }) ∧
    (∀ p : Props, ∀ e d m, p.error = some e → e.data = some d → d.message = some m →
      extractErrorMessage p = m) ∧
    (∀ p : Props, ∀ e m, p.error = some e → e.data.bind ErrData.message = none →
      e.message = some m → extractErrorMessage p = m) ∧
    (∀ p : Props, (p.error.bind ErrorObj.data).bind ErrData.message = none →
      p.error.bind ErrorObj.message = none → extractErrorMessage p = "Unknown error") := by
  have hnone : (processEvents sid auto pre).2 = none := by
    have h := processEvents_skip sid auto pre hpre []
    rw [List.append_nil] at h
    rw [h]
    rfl
  refine ⟨hnone, ?_, ?_, ?_, ?_, ?_⟩
  · intro hidle
    have hmatch : eventMatchesSession t sid = true := by
      rcases (by simpa [passesFilter] using ht : t.type = "server.connected" ∨
          eventMatchesSession t sid = true) with h | h
      · rw [hidle] at h; simp at h
      · exact h
    rw [processEvents_skip sid auto pre hpre (t :: rest), processEvents]
    simp [hmatch, hidle]
  · intro herr
    have hmatch : eventMatchesSession t sid = true := by
      rcases (by simpa [passesFilter] using ht : t.type = "server.connected" ∨
          eventMatchesSession t sid = true) with h | h
      · rw [herr] at h; simp at h
      · exact h
    rw [processEvents_skip sid auto pre hpre (t :: rest), processEvents]
    simp [hmatch, herr]
  · intro p e d m he hd hm
    simp [extractErrorMessage, he, hd, hm]
  · intro p e m he hd hm
    simp [extractErrorMessage, he, hd, hm]
  · intro p hd hm
    simp [extractErrorMessage, hd, hm]

/-- An error event for the other session "T". -/
def evtErrOther : Event :=
  { type := "session.error", properties := { sessionID := some "T" } }

/-- A non-terminal event for session "S". -/
def evtRemovedS : Event :=
  { type := "message.removed", properties := { sessionID := some "S" } }

/-- The idle terminal event for session "S". -/
def evtIdleS : Event :=
  { type := "session.idle", properties := { sessionID := some "S" } }

/-- An error terminal event for "S" carrying `error.data.message`. -/
def evtErrBoomS : Event :=
  { type := "session.error",
    properties := { sessionID := some "S",
                    error := some { data := some { message := some "boom" } } } }

/-- C1 witness: a skipped other-session error, then the matching idle,
and separately a matching error carrying `error.data.message`. -/
theorem c1_wait_terminal_witness :
    (processEvents "S" false [evtErrOther, evtRemovedS, evtIdleS]).2 =
      some { status := .idle, event := some evtIdleS } ∧
    (processEvents "S" false [evtErrBoomS]).2 =
      some { status := .error, error := some "boom", event := some evtErrBoomS } := by
  constructor
  · have h := c1_wait_terminal "S" false [evtErrOther, evtRemovedS] [] evtIdleS
      (by intro e he hf; fin_cases he <;> simp_all [passesFilter, eventMatchesSession,
        evtErrOther, evtRemovedS])
      (by decide)
    exact h.2.1 rfl
  · have h := c1_wait_terminal "S" false [] [] evtErrBoomS
      (by intro e he; simp at he)
      (by decide)
    have h2 := h.2.2.1 rfl
    have h3 : extractErrorMessage evtErrBoomS.properties = "boom" := by decide
    rw [h3] at h2
    simpa using h2

/-- C8: a stream that ends without a matching terminal event resolves as
the failure `{status: "error", error: "SSE stream ended unexpectedly"}`
— a value, not a raised exception, and not a success. -/
theorem c8_stream_ended (sid : String) (opts : WaitOptions) (events : List Event) (tf : Bool)
    (h : ∀ e ∈ events, passesFilter e sid = true →
      (e.type ≠ "session.idle" ∧ e.type ≠ "session.error")) :
    (waitForSession sid opts { delivered := events, ending := .normal, timerFired := tf }).1 =
      .result { status := .error, error := some "SSE stream ended unexpectedly" } := by
  have hnone : (processEvents sid opts.autoApprove events).2 = none := by
    have hh := processEvents_skip sid opts.autoApprove events h []
    rw [List.append_nil] at hh
    rw [hh]
    rfl
  unfold waitForSession
  simp [hnone]

/-- A non-terminal event for the other session "T". -/
def evtRemovedOther : Event :=
  { type := "message.removed", properties := { sessionID := some "T" } }

/-- A run delivering one non-matching and one matching non-terminal
event, whose stream then closes normally. -/
def runNoTerminal : WaitRun :=
  { delivered := [evtRemovedOther, evtConnected], ending := .normal, timerFired := false }

/-- C8 witness: a stream of one non-matching and one matching
non-terminal event, ended normally. -/
theorem c8_stream_ended_witness :
    (waitForSession "S" {} runNoTerminal).1 =
      .result { status := .error, error := some "SSE stream ended unexpectedly" } :=
  c8_stream_ended "S" {} _ false
    (by intro e he hf; fin_cases he <;> simp_all [evtRemovedOther, evtConnected])

/-- C2: with a truthy configured timeout and no terminal event among the
delivered events, an abort caused by the wait engine's own timer
resolves `{status: "timeout"}`, an abort caused by the external
cancellation signal re-raises the `AbortError` to the caller, and on
every exit path the timer is left disarmed. -/
theorem c2_timeout_vs_cancel (sid : String) (opts : WaitOptions) (run : WaitRun) (t : Nat)
    (htimeout : opts.timeout = some t) (ht : t ≠ 0)
    (hnoterm : (processEvents sid opts.autoApprove run.delivered).2 = none) :
    (run.ending = .raised "AbortError" → run.timerFired = true →
      waitForSession sid opts run = (.result { status := .timeout }, false)) ∧
    (run.ending = .raised "AbortError" → run.timerFired = false →
      waitForSession sid opts run = (.raised "AbortError", false)) ∧
    (∀ run2 : WaitRun, (waitForSession sid opts run2).2 = false) := by
  refine ⟨?_, ?_, ?_⟩
  · intro hend htf
    unfold waitForSession
    simp [hnoterm, hend, htf, htimeout, ht]
  · intro hend htf
    unfold waitForSession
    simp [hnoterm, hend, htf, htimeout, ht]
  · intro run2
    unfold waitForSession
    simp only []
    cases hto : opts.timeout with
    | none => simp
    | some t2 =>
      by_cases h2 : t2 = 0
      · simp [h2]
      · simp [h2]

/-- C2 witness: both abort classifications at a concrete run with a
5-second timeout and one non-terminal delivered event. -/
theorem c2_timeout_vs_cancel_witness :
    (waitForSession "S" { timeout := some 5 }
      { delivered := [{ type := "server.connected" }],
        ending := .raised "AbortError", timerFired := true } =
      (.result { status := .timeout }, false)) ∧
    (waitForSession "S" { timeout := some 5 }
      { delivered := [{ type := "server.connected" }],
        ending := .raised "AbortError", timerFired := false } =
      (.raised "AbortError", false)) := by
  constructor
  · exact (c2_timeout_vs_cancel "S" { timeout := some 5 }
      { delivered := [{ type := "server.connected" }],
        ending := .raised "AbortError", timerFired := true } 5 rfl (by decide)
      (by decide)).1 rfl rfl
  · exact (c2_timeout_vs_cancel "S" { timeout := some 5 }
      { delivered := [{ type := "server.connected" }],
        ending := .raised "AbortError", timerFired := false } 5 rfl (by decide)
      (by decide)).2.1 rfl rfl

/-! ### Claim C9 — pre-flight status probe -/

/-- C9: `checkSessionStatus` returns idle when the target session has no
entry in the status map, returns the entry verbatim when present, and
propagates a session-fetch failure unchanged without calling the status
endpoint. -/
theorem c9_checkSessionStatus (client : ClientModel) (sid : String) :
    (∀ m, client.getSession = .ok () → client.statusMap = .ok m →
      statusMapGet m sid = none →
      checkSessionStatus client sid = (.ok { type := "idle" }, true)) ∧
    (∀ m st, client.getSession = .ok () → client.statusMap = .ok m →
      statusMapGet m sid = some st →
      checkSessionStatus client sid = (.ok st, true)) ∧
    (∀ e, client.getSession = .error e →
      checkSessionStatus client sid = (.error e, false)) := by
  refine ⟨?_, ?_, ?_⟩
  · intro m hget hmap hnone
    unfold checkSessionStatus
    rw [hget, hmap]
    simp [hnone]
  · intro m st hget hmap hsome
    unfold checkSessionStatus
    rw [hget, hmap]
    simp [hsome]
  · intro e hget
    unfold checkSessionStatus
    rw [hget]

/-- C9 witness: a retry entry returned verbatim (with attempt count and
message), an absent entry classed idle, and a propagated fetch error. -/
theorem c9_checkSessionStatus_witness :
    checkSessionStatus
      { getSession := .ok (),
        statusMap := .ok [("sess-123",
          { type := "retry", attempt := some 2, message := some "Rate limited",
            next := some 1500 })] } "sess-123" =
      (.ok { type := "retry", attempt := some 2, message := some "Rate limited",
             next := some 1500 }, true) ∧
    checkSessionStatus
      { getSession := .ok (),
        statusMap := .ok [("other-session", { type := "busy" })] } "sess-123" =
      (.ok { type := "idle" }, true) ∧
    checkSessionStatus
      { getSession := .error "404: Session not found",
        statusMap := .ok [] } "nonexistent" =
      (.error "404: Session not found", false) := by
  refine ⟨?_, ?_, ?_⟩
  · exact (c9_checkSessionStatus _ "sess-123").2.1 _ _ rfl rfl rfl
  · exact (c9_checkSessionStatus _ "sess-123").1 _ rfl rfl rfl
  · exact (c9_checkSessionStatus _ "nonexistent").2.2 _ rfl

/-! ### Header lemmas (for the header-idempotence claim) -/

theorem endStreaming_hasOutput (s : FormatterState) :
    (endStreaming s).hasOutput = s.hasOutput := by
  unfold endStreaming
  split <;> rfl

theorem endStreaming_messageSessions (s : FormatterState) :
    (endStreaming s).messageSessions = s.messageSessions := by
  unfold endStreaming
  split <;> rfl

theorem endStreaming_assistantHeaderShown (s : FormatterState) :
    (endStreaming s).assistantHeaderShown = s.assistantHeaderShown := by
  unfold endStreaming
  split <;> rfl

theorem endStreaming_userHeaderShown (s : FormatterState) :
    (endStreaming s).userHeaderShown = s.userHeaderShown := by
  unfold endStreaming
  split <;> rfl

theorem contains_eq_false_of_not_mem {l : List String} {x : String} (h : x ∉ l) :
    l.contains x = false := by
  cases hc : l.contains x
  · rfl
  · exact absurd (List.mem_of_elem_eq_true hc) h

theorem not_mem_setDelete_self (s : List String) (x : String) : x ∉ setDelete s x := by
  unfold setDelete
  intro h
  have h2 := List.of_mem_filter h
  simp at h2

theorem strData_append (s t : String) : (s ++ t).data = s.data ++ t.data := rfl

theorem assistantHeaderLine_ne_empty (model : String) : assistantHeaderLine model ≠ "" := by
  intro h
  have h2 : (some 'A' : Option Char) = none := by
    calc (some 'A' : Option Char)
        = (assistantHeaderLine model).data.head? := by
          unfold assistantHeaderLine; rfl
      _ = ("" : String).data.head? := by rw [h]
      _ = none := rfl
  exact Option.noConfusion h2

/-- A fresh assistant header call prints the header (after an optional
blank separator), marks the session's assistant flag and clears its user
flag, and leaves the identity maps alone. -/
theorem ensureHeader_assistant_fresh (mid model : String) (s : FormatterState)
    (l : List String)
    (hfresh : (mapGet s.messageSessions mid).getD "" ∉ s.assistantHeaderShown) :
    (ensureHeader (some mid) "assistant" model s l).2 =
      (if s.hasOutput then l ++ [""] else l) ++ [assistantHeaderLine model] ∧
    (ensureHeader (some mid) "assistant" model s l).1.assistantHeaderShown =
      setAdd s.assistantHeaderShown ((mapGet s.messageSessions mid).getD "") ∧
    (ensureHeader (some mid) "assistant" model s l).1.userHeaderShown =
      setDelete s.userHeaderShown ((mapGet s.messageSessions mid).getD "") ∧
    (ensureHeader (some mid) "assistant" model s l).1.messageSessions =
      s.messageSessions ∧
    (ensureHeader (some mid) "assistant" model s l).1.hasOutput = s.hasOutput := by
  unfold ensureHeader
  dsimp only [mapGetOpt]
  rw [if_pos rfl, if_neg (by rw [contains_eq_false_of_not_mem hfresh]; simp)]
  refine ⟨?_, ?_, ?_, ?_, ?_⟩ <;>
    simp [endStreaming_hasOutput, endStreaming_messageSessions,
      endStreaming_assistantHeaderShown, endStreaming_userHeaderShown]

/-- An assistant header call for a session whose assistant header is
already shown does nothing. -/
theorem ensureHeader_assistant_shown (mid model : String) (s : FormatterState)
    (l : List String)
    (hshown : (mapGet s.messageSessions mid).getD "" ∈ s.assistantHeaderShown) :
    ensureHeader (some mid) "assistant" model s l = (s, l) := by
  unfold ensureHeader
  dsimp only [mapGetOpt]
  rw [if_pos rfl, if_pos (show _ = true by exact List.elem_eq_true_of_mem hshown)]

/-- A fresh user header call prints the "User" header, marks the user
flag and clears the assistant flag for the session. -/
theorem ensureHeader_user_fresh (mid model : String) (s : FormatterState)
    (l : List String)
    (hfresh : (mapGet s.messageSessions mid).getD "" ∉ s.userHeaderShown) :
    (ensureHeader (some mid) "user" model s l).2 =
      (if s.hasOutput then l ++ [""] else l) ++ ["User"] ∧
    (ensureHeader (some mid) "user" model s l).1.userHeaderShown =
      setAdd s.userHeaderShown ((mapGet s.messageSessions mid).getD "") ∧
    (ensureHeader (some mid) "user" model s l).1.assistantHeaderShown =
      setDelete s.assistantHeaderShown ((mapGet s.messageSessions mid).getD "") ∧
    (ensureHeader (some mid) "user" model s l).1.messageSessions =
      s.messageSessions := by
  unfold ensureHeader
  dsimp only [mapGetOpt]
  rw [if_neg (by decide), if_pos rfl,
    if_neg (by rw [contains_eq_false_of_not_mem hfresh]; simp)]
  refine ⟨?_, ?_, ?_, ?_⟩ <;>
    simp [endStreaming_hasOutput, endStreaming_messageSessions,
      endStreaming_assistantHeaderShown, endStreaming_userHeaderShown]

/-! ### Claim C5 — header idempotence -/

/-- C5: with all three messages mapped to the same session and the
assistant header not yet shown there, two consecutive assistant header
requests print exactly one "Assistant" header line (the second prints
nothing), and after a user header request in between, the next assistant
request prints the header again. -/
theorem c5_header_idempotence (s : FormatterState)
    (m1 m2 mU model1 model2 modelU sid : String)
    (h1 : (mapGet s.messageSessions m1).getD "" = sid)
    (h2 : (mapGet s.messageSessions m2).getD "" = sid)
    (hU : (mapGet s.messageSessions mU).getD "" = sid)
    (hfresh : sid ∉ s.assistantHeaderShown) :
    (ensureHeader (some m1) "assistant" model1 s []).2.count
      (assistantHeaderLine model1) = 1 ∧
    (ensureHeader (some m2) "assistant" model2
      (ensureHeader (some m1) "assistant" model1 s []).1 []).2 = [] ∧
    (ensureHeader (some m2) "assistant" model2
      (ensureHeader (some mU) "user" modelU
        (ensureHeader (some m2) "assistant" model2
          (ensureHeader (some m1) "assistant" model1 s []).1 []).1 []).1 []).2.count
      (assistantHeaderLine model2) = 1 := by
  obtain ⟨L1l, L1a, L1u, L1m, L1h⟩ :=
    ensureHeader_assistant_fresh m1 model1 s [] (by rw [h1]; exact hfresh)
  rw [h1] at L1a L1u
  set s1 := (ensureHeader (some m1) "assistant" model1 s []).1 with hs1
  have hshown2 : (mapGet s1.messageSessions m2).getD "" ∈ s1.assistantHeaderShown := by
    rw [L1m, h2, L1a]
    exact mem_setAdd_self _ _
  have hr2 : ensureHeader (some m2) "assistant" model2 s1 [] = (s1, []) :=
    ensureHeader_assistant_shown m2 model2 s1 [] hshown2
  have hufresh : (mapGet s1.messageSessions mU).getD "" ∉ s1.userHeaderShown := by
    rw [L1m, hU, L1u]
    exact not_mem_setDelete_self _ _
  obtain ⟨L3l, L3u, L3a, L3m⟩ := ensureHeader_user_fresh mU modelU s1 [] hufresh
  rw [L1m, hU] at L3u L3a
  set s3 := (ensureHeader (some mU) "user" modelU s1 []).1 with hs3
  have hafresh : (mapGet s3.messageSessions m2).getD "" ∉ s3.assistantHeaderShown := by
    rw [L3m, L1m, h2, L3a]
    exact not_mem_setDelete_self _ _
  obtain ⟨L4l, L4a, L4u, L4m, L4h⟩ :=
    ensureHeader_assistant_fresh m2 model2 s3 [] hafresh
  have hne1 := assistantHeaderLine_ne_empty model1
  have hne2 := assistantHeaderLine_ne_empty model2
  refine ⟨?_, ?_, ?_⟩
  · rw [L1l]
    cases s.hasOutput <;>
      simp [List.count_append, List.count_cons, List.count_nil, Ne.symm hne1]
  · rw [hr2]
  · rw [hr2]
    rw [show ((s1, ([] : List String)).1) = s1 from rfl]
    rw [L4l]
    cases s3.hasOutput <;>
      simp [List.count_append, List.count_cons, List.count_nil, Ne.symm hne2]

/-- A state mapping messages "m1", "m2", "mU" to session "S". -/
def stSessions : FormatterState :=
  { createFormatterState with
    messageSessions := [("m1", "S"), ("m2", "S"), ("mU", "S")] }

/-- C5 witness: the concrete three-message state — one header line for
the first assistant call, none for the second, and one again after a
user turn. -/
theorem c5_header_idempotence_witness :
    (ensureHeader (some "m1") "assistant" "x/y" stSessions []).2.count
      (assistantHeaderLine "x/y") = 1 ∧
    (ensureHeader (some "m2") "assistant" "x/y"
      (ensureHeader (some "m1") "assistant" "x/y" stSessions []).1 []).2 = [] ∧
    (ensureHeader (some "m2") "assistant" "x/y"
      (ensureHeader (some "mU") "user" ""
        (ensureHeader (some "m2") "assistant" "x/y"
          (ensureHeader (some "m1") "assistant" "x/y" stSessions []).1 []).1 []).1 []).2.count
      (assistantHeaderLine "x/y") = 1 :=
  c5_header_idempotence stSessions "m1" "m2" "mU" "x/y" "x/y" "" "S"
    (by decide) (by decide) (by decide) (by decide)

/-! ### Tool-line lemmas (for the tool dedup claim) -/

theorem finish_fst (l : List String) (s : FormatterState) : (finish l s).1 = l := by
  unfold finish
  split <;> rfl

theorem toolsShown_finish (l : List String) (s : FormatterState) :
    (finish l s).2.toolsShown = s.toolsShown := by
  unfold finish
  split <;> rfl

theorem toolsShown_endStreaming (s : FormatterState) :
    (endStreaming s).toolsShown = s.toolsShown := by
  unfold endStreaming
  split <;> rfl

theorem toolsShown_ensureHeader (mid : Option String) (role model : String)
    (s : FormatterState) (l : List String) :
    (ensureHeader mid role model s l).1.toolsShown = s.toolsShown := by
  unfold ensureHeader
  dsimp only
  split_ifs <;> simp [toolsShown_endStreaming]

theorem setHasOpt_setAddOpt_self (s : List (Option String)) (x : Option String) :
    setHasOpt (setAddOpt s x) x = true := by
  unfold setHasOpt setAddOpt
  split
  · exact List.elem_eq_true_of_mem (by assumption)
  · simp

/-- Every line `ensureHeader` appends is a blank, a "User" header, or
the assistant header. -/
theorem ensureHeader_lines_shape (mid : Option String) (role model : String)
    (s : FormatterState) (l : List String) :
    ∃ ext, (ensureHeader mid role model s l).2 = l ++ ext ∧
      ∀ x ∈ ext, x = "" ∨ x = "User" ∨ x = assistantHeaderLine model := by
  unfold ensureHeader
  dsimp only
  split_ifs with ha hc hout hu hcu hout2
  · exact ⟨[], by simp, by intro x hx; simp at hx⟩
  · refine ⟨["", assistantHeaderLine model], by simp, ?_⟩
    intro x hx
    simp at hx
    rcases hx with h | h
    · exact Or.inl h
    · exact Or.inr (Or.inr h)
  · refine ⟨[assistantHeaderLine model], by simp, ?_⟩
    intro x hx
    simp at hx
    exact Or.inr (Or.inr hx)
  · exact ⟨[], by simp, by intro x hx; simp at hx⟩
  · refine ⟨["", "User"], by simp, ?_⟩
    intro x hx
    simp at hx
    rcases hx with h | h
    · exact Or.inl h
    · exact Or.inr (Or.inl h)
  · refine ⟨["User"], by simp, ?_⟩
    intro x hx
    simp at hx
    exact Or.inr (Or.inl hx)
  · exact ⟨[], by simp, by intro x hx; simp at hx⟩

/-- A line whose first character is a space is neither blank nor a
role header. -/
theorem spacey_ne (x : String) (hx : x.data.head? = some ' ') :
    x ≠ "" ∧ x ≠ "User" ∧ ∀ model, x ≠ assistantHeaderLine model := by
  refine ⟨?_, ?_, ?_⟩
  · intro h
    rw [h] at hx
    exact Option.noConfusion hx
  · intro h
    rw [h] at hx
    have h2 : some 'U' = some ' ' := hx
    simp at h2
  · intro model h
    rw [h] at hx
    have h2 : (assistantHeaderLine model).data.head? = some 'A' := by
      unfold assistantHeaderLine; rfl
    rw [h2] at hx
    simp at hx

/-- Header lines contribute nothing to the count of a space-indented
display line. -/
theorem count_spacey_ext (ext : List String) (x model : String)
    (hx : x.data.head? = some ' ')
    (hext : ∀ y ∈ ext, y = "" ∨ y = "User" ∨ y = assistantHeaderLine model) :
    ext.count x = 0 := by
  rw [List.count_eq_zero]
  intro hmem
  obtain ⟨hne1, hne2, hne3⟩ := spacey_ne x hx
  rcases hext x hmem with h | h | h
  · exact hne1 h
  · exact hne2 h
  · exact hne3 model h

/-- The `message.part.updated` dispatcher on a tool part: session
bookkeeping touches neither the dedup set nor the sink. -/
theorem formatMessagePartUpdated_tool (props : Props) (s : FormatterState) (part : PartObj)
    (hpart : props.part = some part) (hptype : part.type = some "tool") :
    ∃ s', formatMessagePartUpdated props s =
        formatToolPart part part.messageID
          ((mapGetOpt s'.messageRoles part.messageID).getD "unknown")
          ((mapGetOpt s'.messageModels part.messageID).getD "") s' ∧
      s'.toolsShown = s.toolsShown ∧ s'.written = s.written := by
  unfold formatMessagePartUpdated
  dsimp only
  rw [hpart]
  simp only [Option.some_bind, Option.getD_some]
  rw [hptype]
  refine ⟨_, rfl, ?_, ?_⟩ <;> (split <;> rfl)

/-- `status == "pending"` never displays. -/
theorem formatToolPart_pending (part : PartObj) (tstate : ToolStateObj)
    (mid : Option String) (role model : String) (st : FormatterState)
    (hstate : part.state = some tstate) (hstatus : tstate.status = some "pending") :
    formatToolPart part mid role model st = ([], st) := by
  unfold formatToolPart
  dsimp only
  rw [hstate]
  simp only [Option.some_bind]
  rw [hstatus, if_pos rfl]

/-- A first `running` displays the tool name once and marks the call. -/
theorem formatToolPart_running_fresh (part : PartObj) (tstate : ToolStateObj)
    (mid : Option String) (role model : String) (st : FormatterState)
    (hstate : part.state = some tstate) (hstatus : tstate.status = some "running")
    (hfresh : setHasOpt st.toolsShown part.callID = false) :
    (formatToolPart part mid role model st).1.count
      ("  " ++ jsStr (jsOrStr tstate.title part.tool)) = 1 ∧
    setHasOpt (formatToolPart part mid role model st).2.toolsShown part.callID = true := by
  unfold formatToolPart
  dsimp only
  rw [hstate]
  simp only [Option.some_bind]
  rw [hstatus, if_neg (by simp), if_pos rfl, if_neg (by simp [hfresh])]
  constructor
  · rw [finish_fst]
    obtain ⟨ext, hext, hshape⟩ := ensureHeader_lines_shape mid role model
      { st with toolsShown := setAddOpt st.toolsShown part.callID } []
    rw [hext]
    simp only [List.nil_append]
    rw [List.count_append, count_spacey_ext ext
      ("  " ++ jsStr (jsOrStr tstate.title part.tool)) model rfl hshape]
    simp
  · rw [toolsShown_finish]
    simp only [toolsShown_endStreaming, toolsShown_ensureHeader]
    exact setHasOpt_setAddOpt_self _ _

/-- A repeated `running` for an already-shown call displays nothing. -/
theorem formatToolPart_running_shown (part : PartObj) (tstate : ToolStateObj)
    (mid : Option String) (role model : String) (st : FormatterState)
    (hstate : part.state = some tstate) (hstatus : tstate.status = some "running")
    (hshown : setHasOpt st.toolsShown part.callID = true) :
    formatToolPart part mid role model st = ([], st) := by
  unfold formatToolPart
  dsimp only
  rw [hstate]
  simp only [Option.some_bind]
  rw [hstatus, if_neg (by simp), if_pos rfl, if_pos hshown]

/-- `completed` with no prior `running` displays the tool name once. -/
theorem formatToolPart_completed_fresh (part : PartObj) (tstate : ToolStateObj)
    (mid : Option String) (role model : String) (st : FormatterState)
    (hstate : part.state = some tstate) (hstatus : tstate.status = some "completed")
    (hfresh : setHasOpt st.toolsShown part.callID = false) :
    (formatToolPart part mid role model st).1.count
      ("  " ++ jsStr (jsOrStr tstate.title part.tool)) = 1 := by
  unfold formatToolPart
  dsimp only
  rw [hstate]
  simp only [Option.some_bind]
  rw [hstatus, if_neg (by simp), if_neg (by simp), if_pos rfl,
    if_pos (show (!setHasOpt st.toolsShown part.callID) = true by simp [hfresh])]
  rw [finish_fst]
  obtain ⟨ext, hext, hshape⟩ := ensureHeader_lines_shape mid role model st []
  rw [hext]
  simp only [List.nil_append]
  rw [List.count_append, count_spacey_ext ext
    ("  " ++ jsStr (jsOrStr tstate.title part.tool)) model rfl hshape]
  simp

/-- `completed` after `running` was seen displays nothing. -/
theorem formatToolPart_completed_shown (part : PartObj) (tstate : ToolStateObj)
    (mid : Option String) (role model : String) (st : FormatterState)
    (hstate : part.state = some tstate) (hstatus : tstate.status = some "completed")
    (hshown : setHasOpt st.toolsShown part.callID = true) :
    (formatToolPart part mid role model st).1 = [] := by
  unfold formatToolPart
  dsimp only
  rw [hstate]
  simp only [Option.some_bind]
  rw [hstatus, if_neg (by simp), if_neg (by simp), if_pos rfl,
    if_neg (show ¬(!setHasOpt st.toolsShown part.callID) = true by simp [hshown])]
  rw [finish_fst]

/-- `error` always displays exactly one truncated error line. -/
theorem formatToolPart_error (part : PartObj) (tstate : ToolStateObj)
    (mid : Option String) (role model : String) (st : FormatterState)
    (hstate : part.state = some tstate) (hstatus : tstate.status = some "error") :
    (formatToolPart part mid role model st).1.count
      ("  " ++ jsStr (jsOrStr tstate.title part.tool) ++ " — " ++
        truncate (jsOrDefault tstate.error "failed") 60) = 1 := by
  unfold formatToolPart
  dsimp only
  rw [hstate]
  simp only [Option.some_bind]
  rw [hstatus, if_neg (by simp), if_neg (by simp), if_neg (by simp), if_pos rfl]
  rw [finish_fst]
  obtain ⟨ext, hext, hshape⟩ := ensureHeader_lines_shape mid role model st []
  rw [hext]
  simp only [List.nil_append]
  rw [List.count_append, count_spacey_ext ext
    ("  " ++ jsStr (jsOrStr tstate.title part.tool) ++ " — " ++
      truncate (jsOrDefault tstate.error "failed") 60) model rfl hshape]
  simp

/-! ### Claim C6 — tool call display dedup -/

/-- C6: for tool parts sharing one callID — `pending` never displays;
a first `running` displays the tool name once and marks the call shown;
a repeated `running` displays nothing; `completed` displays once iff
`running` was never observed, else nothing; `error` always displays its
truncated error line once; and the sequence `running` then `completed`
yields the single line from `running` with the `completed` event
producing none. -/
theorem c6_tool_dedup (s : FormatterState) (evt : Event) (part : PartObj)
    (tstate : ToolStateObj)
    (htype : evt.type = "message.part.updated")
    (hpart : evt.properties.part = some part)
    (hptype : part.type = some "tool")
    (hstate : part.state = some tstate) :
    (tstate.status = some "pending" →
      (formatEvent evt s).1 = [] ∧ (formatEvent evt s).2.written = s.written) ∧
    (tstate.status = some "running" → setHasOpt s.toolsShown part.callID = false →
      (formatEvent evt s).1.count ("  " ++ jsStr (jsOrStr tstate.title part.tool)) = 1 ∧
      setHasOpt (formatEvent evt s).2.toolsShown part.callID = true) ∧
    (tstate.status = some "running" → setHasOpt s.toolsShown part.callID = true →
      (formatEvent evt s).1 = [] ∧ (formatEvent evt s).2.written = s.written) ∧
    (tstate.status = some "completed" → setHasOpt s.toolsShown part.callID = false →
      (formatEvent evt s).1.count ("  " ++ jsStr (jsOrStr tstate.title part.tool)) = 1) ∧
    (tstate.status = some "completed" → setHasOpt s.toolsShown part.callID = true →
      (formatEvent evt s).1 = []) ∧
    (tstate.status = some "error" →
      (formatEvent evt s).1.count
        ("  " ++ jsStr (jsOrStr tstate.title part.tool) ++ " — " ++
          truncate (jsOrDefault tstate.error "failed") 60) = 1) ∧
    (∀ (evt2 : Event) (part2 : PartObj) (tstate2 : ToolStateObj),
      evt2.type = "message.part.updated" → evt2.properties.part = some part2 →
      part2.type = some "tool" → part2.state = some tstate2 →
      tstate2.status = some "completed" → part2.callID = part.callID →
      tstate.status = some "running" → setHasOpt s.toolsShown part.callID = false →
      (formatEvent evt2 (formatEvent evt s).2).1 = []) := by
  have hred : ∀ st : FormatterState,
      formatEvent evt st = formatMessagePartUpdated evt.properties st := by
    obtain ⟨ty, props⟩ := evt
    simp only at htype
    subst htype
    intro st
    rfl
  obtain ⟨s', hchar, hts, hw⟩ :=
    formatMessagePartUpdated_tool evt.properties s part hpart hptype
  rw [hred, hchar]
  refine ⟨?_, ?_, ?_, ?_, ?_, ?_, ?_⟩
  · intro hp
    rw [formatToolPart_pending part tstate _ _ _ s' hstate hp]
    exact ⟨rfl, hw⟩
  · intro hr hf
    exact formatToolPart_running_fresh part tstate _ _ _ s' hstate hr
      (by rw [hts]; exact hf)
  · intro hr hsh
    rw [formatToolPart_running_shown part tstate _ _ _ s' hstate hr
      (by rw [hts]; exact hsh)]
    exact ⟨rfl, hw⟩
  · intro hc hf
    exact formatToolPart_completed_fresh part tstate _ _ _ s' hstate hc
      (by rw [hts]; exact hf)
  · intro hc hsh
    exact formatToolPart_completed_shown part tstate _ _ _ s' hstate hc
      (by rw [hts]; exact hsh)
  · intro he
    exact formatToolPart_error part tstate _ _ _ s' hstate he
  · intro evt2 part2 tstate2 ht2 hp2 hpt2 hst2 hstatus2 hcall hrun hfresh
    have hred2 : ∀ st : FormatterState,
        formatEvent evt2 st = formatMessagePartUpdated evt2.properties st := by
      obtain ⟨ty2, props2⟩ := evt2
      simp only at ht2
      subst ht2
      intro st
      rfl
    obtain ⟨s2', hchar2, hts2, hw2⟩ :=
      formatMessagePartUpdated_tool evt2.properties
        (formatToolPart part part.messageID
          ((mapGetOpt s'.messageRoles part.messageID).getD "unknown")
          ((mapGetOpt s'.messageModels part.messageID).getD "") s').2 part2 hp2 hpt2
    rw [hred2, hchar2]
    apply formatToolPart_completed_shown part2 tstate2 _ _ _ s2' hst2 hstatus2
    rw [hts2, hcall]
    exact (formatToolPart_running_fresh part tstate _ _ _ s' hstate hrun
      (by rw [hts]; exact hfresh)).2

/-- The running tool state of call "c1" (with a human title). -/
def toolStateRun : ToolStateObj :=
  { status := some "running", title := some "Run tests" }

/-- The completed tool state of call "c1". -/
def toolStateDone : ToolStateObj :=
  { status := some "completed", title := some "Run tests" }

/-- The errored tool state of call "c2". -/
def toolStateErr : ToolStateObj :=
  { status := some "error", error := some "exploded badly" }

/-- The running tool part for call "c1". -/
def toolPartRun : PartObj :=
  { type := some "tool", id := some "pt", messageID := some "m9",
    sessionID := some "S", tool := some "bash", callID := some "c1",
    state := some toolStateRun }

/-- The completed tool part for call "c1". -/
def toolPartDone : PartObj :=
  { type := some "tool", id := some "pt", messageID := some "m9",
    sessionID := some "S", tool := some "bash", callID := some "c1",
    state := some toolStateDone }

/-- The errored tool part for call "c2". -/
def toolPartErr : PartObj :=
  { type := some "tool", id := some "pe", messageID := some "m9",
    sessionID := some "S", tool := some "bash", callID := some "c2",
    state := some toolStateErr }

/-- The `running` tool event. -/
def evtToolRun : Event :=
  { type := "message.part.updated", properties := { part := some toolPartRun } }

/-- The `completed` tool event for the same call. -/
def evtToolDone : Event :=
  { type := "message.part.updated", properties := { part := some toolPartDone } }

/-- The lone `error` tool event. -/
def evtToolErr : Event :=
  { type := "message.part.updated", properties := { part := some toolPartErr } }

/-- C6 witness: from a fresh state, `running` prints the title line
once, the following `completed` for the same call prints nothing, and a
lone `error` prints its truncated error line once. -/
theorem c6_tool_dedup_witness :
    (formatEvent evtToolRun createFormatterState).1.count
      ("  " ++ jsStr (jsOrStr toolStateRun.title toolPartRun.tool)) = 1 ∧
    (formatEvent evtToolDone (formatEvent evtToolRun createFormatterState).2).1 = [] ∧
    (formatEvent evtToolErr createFormatterState).1.count
      ("  " ++ jsStr (jsOrStr toolStateErr.title toolPartErr.tool) ++ " — " ++
        truncate (jsOrDefault toolStateErr.error "failed") 60) = 1 := by
  have h := c6_tool_dedup createFormatterState evtToolRun toolPartRun toolStateRun
    rfl rfl rfl rfl
  have he := c6_tool_dedup createFormatterState evtToolErr toolPartErr toolStateErr
    rfl rfl rfl rfl
  refine ⟨(h.2.1 rfl (by decide)).1, ?_, he.2.2.2.2.2.1 rfl⟩
  exact h.2.2.2.2.2.2 evtToolDone toolPartDone toolStateDone rfl rfl rfl rfl rfl rfl
    rfl (by decide)

/-! ### Role-fallback lemmas (for claim C10) -/

theorem mapGet_mapSet_self (m : List (String × String)) (k v : String) :
    mapGet (mapSet m k v) k = some v := by
  unfold mapGet mapSet
  rw [List.find?_cons_of_pos _ (by simp)]
  rfl

/-- `ensureHeader` does nothing for a role that is neither assistant nor
user. -/
theorem ensureHeader_other (mid : Option String) (role model : String)
    (s : FormatterState) (l : List String)
    (h1 : role ≠ "assistant") (h2 : role ≠ "user") :
    ensureHeader mid role model s l = (s, l) := by
  unfold ensureHeader
  rw [if_neg h1, if_neg h2]

/-- `ensureHeader` writes at most stream-terminating newlines to the
sink. -/
theorem written_ensureHeader (mid : Option String) (role model : String)
    (s : FormatterState) (l : List String) :
    ∃ pre, (ensureHeader mid role model s l).1.written = s.written ++ pre ∧
      ∀ x ∈ pre, x = "\n" := by
  unfold ensureHeader
  dsimp only
  split_ifs
  · exact ⟨[], by simp, by intro x hx; simp at hx⟩
  · unfold endStreaming
    split
    · exact ⟨["\n"], rfl, by intro x hx; simpa using hx⟩
    · exact ⟨[], by simp, by intro x hx; simp at hx⟩
  · unfold endStreaming
    split
    · exact ⟨["\n"], rfl, by intro x hx; simpa using hx⟩
    · exact ⟨[], by simp, by intro x hx; simp at hx⟩
  · exact ⟨[], by simp, by intro x hx; simp at hx⟩
  · unfold endStreaming
    split
    · exact ⟨["\n"], rfl, by intro x hx; simpa using hx⟩
    · exact ⟨[], by simp, by intro x hx; simp at hx⟩
  · unfold endStreaming
    split
    · exact ⟨["\n"], rfl, by intro x hx; simpa using hx⟩
    · exact ⟨[], by simp, by intro x hx; simp at hx⟩
  · exact ⟨[], by simp, by intro x hx; simp at hx⟩

theorem lastPartType_finish (l : List String) (s : FormatterState) :
    (finish l s).2.lastPartType = s.lastPartType := by
  unfold finish
  split <;> rfl

/-! ### Claim C10 — role fallbacks -/

/-- C10: a `message.part.delta` whose message has no recorded role is
treated as assistant-attributed — the assistant header logic runs before
the delta text is written (the assistant flag is set, the user flag
cleared, and the sink receives the assistant header line then the delta)
— whereas a `message.part.updated` text part whose message has no
recorded role defaults to "unknown" and takes the raw-block fallback
path (one unquoted line, no header). -/
theorem c10_role_fallbacks :
    (∀ (s : FormatterState) (evt : Event) (mid sid0 d : String),
      evt.type = "message.part.delta" →
      evt.properties.messageID = some mid → mid ≠ "" →
      evt.properties.sessionID = some sid0 → sid0 ≠ "" →
      evt.properties.delta = some d → d ≠ "" →
      evt.properties.field = some "text" →
      mapGet s.messageRoles mid = none →
      sid0 ∉ s.assistantHeaderShown →
      (formatEvent evt s).1 = [] ∧
      (formatEvent evt s).2.assistantHeaderShown = setAdd s.assistantHeaderShown sid0 ∧
      (formatEvent evt s).2.userHeaderShown = setDelete s.userHeaderShown sid0 ∧
      ∃ pre, (∀ x ∈ pre, x = "\n") ∧
        (formatEvent evt s).2.written = s.written ++ pre ++
          [assistantHeaderLine ((mapGet s.messageModels mid).getD "") ++ "\n", d]) ∧
    (∀ (s : FormatterState) (evt : Event) (part : PartObj) (t : String),
      evt.type = "message.part.updated" →
      evt.properties.part = some part →
      part.type = some "text" →
      part.text = some t → t ≠ "" →
      streamedHas s.streamedParts part.id = false →
      mapGetOpt s.messageRoles part.messageID = none →
      (formatEvent evt s).1 = [t] ∧
      (formatEvent evt s).2.lastPartType = "text") := by
  constructor
  · intro s evt mid sid0 d htype hmid hmidne hsid hsidne hdelta hdne hfield hrole hfresh
    have hred : formatEvent evt s = formatMessagePartDelta evt.properties s := by
      obtain ⟨ty, props⟩ := evt
      simp only at htype
      subst htype
      rfl
    rw [hred]
    unfold formatMessagePartDelta
    dsimp only
    rw [hdelta, hmid, hsid, hfield]
    rw [if_neg (by simp [truthy, hdne])]
    obtain ⟨sp, hsp⟩ : ∃ sp,
        (if truthy evt.properties.partID = true then
          { s with streamedParts := setAdd s.streamedParts (evt.properties.partID.getD "") }
         else s) = { s with streamedParts := sp } := by
      split
      · exact ⟨_, rfl⟩
      · exact ⟨s.streamedParts, rfl⟩
    rw [hsp]
    rw [if_pos (show (truthy (some mid) && truthy (some sid0)) = true by
      simp [truthy, hmidne, hsidne])]
    simp only [Option.getD_some, mapGetOpt]
    rw [hrole]
    simp only [Option.getD_none]
    simp only [if_true]
    set ST : FormatterState :=
      { s with messageSessions := mapSet s.messageSessions mid sid0,
               streamedParts := sp } with hST
    have hlook : (mapGet ST.messageSessions mid).getD "" = sid0 := by
      rw [hST]
      dsimp only
      rw [mapGet_mapSet_self]
      rfl
    have hfr : (mapGet ST.messageSessions mid).getD "" ∉ ST.assistantHeaderShown := by
      rw [hlook, hST]
      dsimp only
      exact hfresh
    obtain ⟨L1, L2, L3, L4, L5⟩ := ensureHeader_assistant_fresh mid
      ((mapGet s.messageModels mid).getD "") ST [] hfr
    obtain ⟨preE, hpreEq, hpreNl⟩ := written_ensureHeader (some mid) "assistant"
      ((mapGet s.messageModels mid).getD "") ST []
    refine ⟨trivial, ?_, ?_, ?_⟩
    · dsimp only
      rw [L2, hlook, hST]
    · dsimp only
      rw [L3, hlook, hST]
    · dsimp only
      rw [L1, hpreEq, hST]
      dsimp only
      cases hho : s.hasOutput with
      | true =>
        refine ⟨preE ++ ["\n"], ?_, ?_⟩
        · intro x hx
          rcases List.mem_append.mp hx with h | h
          · exact hpreNl x h
          · simpa using h
        · simp [List.append_assoc, show ("" : String) ++ "\n" = "\n" from rfl]
      | false =>
        refine ⟨preE, hpreNl, ?_⟩
        simp [List.append_assoc]
  · intro s evt part t htype hpart hptype htext htne hstreamed hrole
    have hred : formatEvent evt s = formatMessagePartUpdated evt.properties s := by
      obtain ⟨ty, props⟩ := evt
      simp only at htype
      subst htype
      rfl
    rw [hred]
    unfold formatMessagePartUpdated
    dsimp only
    rw [hpart]
    simp only [Option.some_bind, Option.getD_some]
    rw [hptype]
    obtain ⟨ms, hms⟩ : ∃ ms,
        (if (truthy part.messageID && truthy part.sessionID) = true then
          { s with messageSessions :=
              mapSet s.messageSessions (part.messageID.getD "") (part.sessionID.getD "") }
         else s) = { s with messageSessions := ms } := by
      split
      · exact ⟨_, rfl⟩
      · exact ⟨s.messageSessions, rfl⟩
    rw [hms]
    unfold formatTextPart
    dsimp only
    rw [htext]
    rw [hrole]
    simp only [Option.getD_none, Option.getD_some]
    rw [if_neg (by simp [hstreamed])]
    rw [if_neg htne]
    rw [if_neg (by decide : ¬("unknown" = "user"))]
    rw [ensureHeader_other part.messageID "unknown" _ _ [] (by decide) (by decide)]
    constructor
    · rw [finish_fst]
      simp
    · rw [lastPartType_finish]

/-- A delta for message "mX" (no recorded role) in session "S2". -/
def evtDeltaNoRole : Event :=
  { type := "message.part.delta",
    properties := { messageID := some "mX", sessionID := some "S2",
                    partID := some "pX", delta := some "Hi", field := some "text" } }

/-- A text part of message "mY" whose role was never recorded. -/
def snapPartNoRole : PartObj :=
  { type := some "text", id := some "pY", messageID := some "mY",
    sessionID := some "S2", text := some "Hello block" }

/-- The full-snapshot event carrying `snapPartNoRole`. -/
def evtSnapNoRole : Event :=
  { type := "message.part.updated", properties := { part := some snapPartNoRole } }

/-- C10 witness: the concrete no-role delta runs the assistant header
logic and streams the chunk; the concrete no-role snapshot prints one
raw block line. -/
theorem c10_role_fallbacks_witness :
    ((formatEvent evtDeltaNoRole createFormatterState).1 = [] ∧
     (formatEvent evtDeltaNoRole createFormatterState).2.assistantHeaderShown =
       setAdd createFormatterState.assistantHeaderShown "S2" ∧
     (formatEvent evtDeltaNoRole createFormatterState).2.userHeaderShown =
       setDelete createFormatterState.userHeaderShown "S2" ∧
     ∃ pre, (∀ x ∈ pre, x = "\n") ∧
       (formatEvent evtDeltaNoRole createFormatterState).2.written =
         createFormatterState.written ++ pre ++
           [assistantHeaderLine
             ((mapGet createFormatterState.messageModels "mX").getD "") ++ "\n", "Hi"]) ∧
    ((formatEvent evtSnapNoRole createFormatterState).1 = ["Hello block"] ∧
     (formatEvent evtSnapNoRole createFormatterState).2.lastPartType = "text") :=
  ⟨c10_role_fallbacks.1 createFormatterState evtDeltaNoRole "mX" "S2" "Hi"
      rfl rfl (by decide) rfl (by decide) rfl (by decide) rfl rfl (by decide),
   c10_role_fallbacks.2 createFormatterState evtSnapNoRole snapPartNoRole
      "Hello block" rfl rfl rfl rfl (by decide) rfl rfl⟩

/-! ### Claim C4 — delta streaming dedup -/

/-- C4: a `message.part.delta` event (with a truthy delta and partID)
adds its partID to the streamed-parts set, the set never shrinks, and
any later `message.part.updated` with `part.type == "text"` and the same
partID produces no output lines and writes nothing (the full snapshot is
suppressed). -/
theorem c4_delta_then_snapshot (s : FormatterState) (evt : Event) (p : String)
    (htype : evt.type = "message.part.delta")
    (hpartID : evt.properties.partID = some p) (hp : p ≠ "")
    (hdelta : truthy evt.properties.delta = true) :
    p ∈ (formatEvent evt s).2.streamedParts ∧
    (∀ (e2 : Event) (s2 : FormatterState), p ∈ s2.streamedParts →
      p ∈ (formatEvent e2 s2).2.streamedParts) ∧
    (∀ (e2 : Event) (s2 : FormatterState) (part : PartObj),
      e2.type = "message.part.updated" → e2.properties.part = some part →
      part.type = some "text" → part.id = some p → p ∈ s2.streamedParts →
      (formatEvent e2 s2).1 = [] ∧ (formatEvent e2 s2).2.written = s2.written) := by
  refine ⟨?_, ?_, ?_⟩
  · have hred : formatEvent evt s = formatMessagePartDelta evt.properties s := by
      obtain ⟨ty, props⟩ := evt
      simp only at htype
      subst htype
      rfl
    rw [hred]
    unfold formatMessagePartDelta
    dsimp only
    rw [hpartID]
    simp only [hdelta, Bool.not_true, Bool.false_eq_true, if_false]
    have htr : truthy (some p) = true := by simp [truthy, hp]
    simp only [htr, if_true]
    split_ifs <;>
      simp [streamedParts_ensureHeader, mem_setAdd_self]
  · intro e2 s2 h2
    exact formatEvent_streamedParts_mono e2 s2 p h2
  · intro e2 s2 part htype2 hpart hptype hpid hmem
    have hred : formatEvent e2 s2 = formatMessagePartUpdated e2.properties s2 := by
      obtain ⟨ty, props⟩ := e2
      simp only at htype2
      subst htype2
      rfl
    rw [hred]
    unfold formatMessagePartUpdated
    dsimp only
    rw [hpart]
    simp only [Option.some_bind, Option.getD_some]
    rw [hptype]
    have hcontains : ∀ s3 : FormatterState, s3.streamedParts = s2.streamedParts →
        streamedHas s3.streamedParts part.id = true := by
      intro s3 h3
      rw [hpid]
      unfold streamedHas
      rw [h3]
      exact List.elem_eq_true_of_mem hmem
    unfold formatTextPart
    dsimp only
    split_ifs <;> first
      | exact ⟨rfl, rfl⟩
      | exact absurd (hcontains _ rfl) (by assumption)

/-- A fresh state already holding part "p2" in its streamed set. -/
def stWithP2 : FormatterState :=
  { createFormatterState with streamedParts := ["p2"] }

/-- A delta event for part "p2" of message "m2" in session "S". -/
def evtDeltaP2 : Event :=
  { type := "message.part.delta",
    properties := { messageID := some "m2", partID := some "p2",
                    sessionID := some "S", delta := some "Wor", field := some "text" } }

/-- The final full snapshot of part "p2". -/
def evtSnapshotP2 : Event :=
  { type := "message.part.updated",
    properties := { part := some { type := some "text", id := some "p2",
                                   messageID := some "m2", sessionID := some "S",
                                   text := some "Working" } } }

/-- C4 witness: the concrete delta marks "p2" streamed and the later
full snapshot for "p2" is suppressed. -/
theorem c4_delta_then_snapshot_witness :
    "p2" ∈ (formatEvent evtDeltaP2 createFormatterState).2.streamedParts ∧
    (formatEvent evtSnapshotP2 stWithP2).1 = [] ∧
    (formatEvent evtSnapshotP2 stWithP2).2.written = stWithP2.written := by
  have h := c4_delta_then_snapshot createFormatterState evtDeltaP2 "p2" rfl rfl
    (by decide) (by decide)
  refine ⟨h.1, ?_⟩
  exact h.2.2 evtSnapshotP2 stWithP2
    { type := some "text", id := some "p2", messageID := some "m2",
      sessionID := some "S", text := some "Working" }
    rfl rfl rfl rfl (by decide)

/-- C7 witness: the amended theorem applied to the concrete
whitespace-heavy 90-character string at budget 60. -/
theorem c7_truncate_amended_witness :
    60 < (cleanWs wsHeavy90).length ∧
    ((truncate wsHeavy90 60).length = 60 + 1 ∧
     (truncate wsHeavy90 60).data = (cleanWs wsHeavy90).data.take 60 ++ ['…'] ∧
     (∀ c ∈ (cleanWs wsHeavy90).data, isJsWhitespace c = true → c = ' ') ∧
     List.Chain' (fun a b => ¬(a = ' ' ∧ b = ' ')) (cleanWs wsHeavy90).data ∧
     (∀ c, (cleanWs wsHeavy90).data.head? = some c → isJsWhitespace c = false) ∧
     (∀ c, (cleanWs wsHeavy90).data.getLast? = some c → isJsWhitespace c = false)) :=
  ⟨by decide, c7_truncate_amended wsHeavy90 60 (by decide)⟩

end OcCli
